import Mathlib

/-!
Verification of the Schema-Generator repository (schema_generator.py,
table.py, sql_script.py, clean_script.py, config.py).

The Python sources are shallowly embedded: Python strings become `List Char`
(`PyStr`), Python string methods (`upper`, `split`, `strip`, `replace`,
`isdigit`, `endswith`) become executable Lean functions of the same
behaviour on the inputs the program handles, dictionaries preserving
insertion order become association lists, and statements that can raise
(`KeyError`, `AttributeError`, `RuntimeError`) become `Except Unit`
results.  Configuration values are fixed to the defaults written by
config.py (Config.__init__).
-/

namespace SchemaGen

/-- Python strings, embedded as lists of characters. -/
abbrev PyStr := List Char

/-- Python str.upper() (ASCII range, which is all the generator emits). -/
def pyUpper (s : PyStr) : PyStr := s.map Char.toUpper

/-- Python str.lower() (ASCII range). -/
def pyLower (s : PyStr) : PyStr := s.map Char.toLower

/-- The characters Python str.split() (no argument) treats as whitespace. -/
def isPySpace (c : Char) : Bool :=
  c == ' ' || c == '\t' || c == '\n' || c == '\x0d' || c == '\x0b' || c == '\x0c'

/-- Helper for `pySplit`: accumulates the current word while walking the text. -/
def splitAux : PyStr → PyStr → List PyStr
  | [], acc => if acc.isEmpty then [] else [acc]
  | c :: cs, acc =>
    if isPySpace c then
      if acc.isEmpty then splitAux cs [] else acc :: splitAux cs []
    else splitAux cs (acc ++ [c])

/-- Python str.split() with no argument: split on runs of whitespace,
dropping empty pieces. -/
def pySplit (s : PyStr) : List PyStr := splitAux s []

/-- Helper for `pySplitOn`. -/
def splitOnCharAux (sep : Char) : PyStr → PyStr × List PyStr
  | [] => ([], [])
  | c :: cs =>
    let r := splitOnCharAux sep cs
    if c == sep then ([], r.1 :: r.2) else (c :: r.1, r.2)

/-- Python str.split(sep) for a one-character separator: keeps empty pieces. -/
def pySplitOn (sep : Char) (s : PyStr) : List PyStr :=
  (splitOnCharAux sep s).1 :: (splitOnCharAux sep s).2

/-- Python str.isdigit() (ASCII digits; nonempty). -/
def pyIsDigit (s : PyStr) : Bool := !s.isEmpty && s.all (fun c => c.isDigit)

/-- Python int(s) on a digit string. -/
def pyToNat (s : PyStr) : Nat := s.foldl (fun n c => n * 10 + (c.toNat - 48)) 0

/-- Python str.lstrip(chars): drop leading characters from the set. -/
def pyLstripSet (set : List Char) (s : PyStr) : PyStr :=
  s.dropWhile (fun c => set.contains c)

/-- Python str.rstrip(chars): drop trailing characters from the set. -/
def pyRstripSet (set : List Char) (s : PyStr) : PyStr :=
  (s.reverse.dropWhile (fun c => set.contains c)).reverse

/-- The whitespace set of Python str.strip() with no argument. -/
def pyWhitespace : List Char := [' ', '\t', '\n', '\x0d', '\x0b', '\x0c']

/-- Python str.strip() with no argument. -/
def pyStrip (s : PyStr) : PyStr :=
  pyRstripSet pyWhitespace (pyLstripSet pyWhitespace s)

/-- Python str.lstrip() with no argument. -/
def pyLstrip (s : PyStr) : PyStr := pyLstripSet pyWhitespace s

/-- Python str.strip(chars). -/
def pyStripSet (set : List Char) (s : PyStr) : PyStr :=
  pyRstripSet set (pyLstripSet set s)

/-- Python s.endswith(t) for a tuple of one-character suffixes. -/
def endsWithAny (cs : List Char) (s : PyStr) : Bool :=
  match s.getLast? with
  | some c => cs.contains c
  | none => false

/-- Helper for `pyReplace` (fuel-based recursion; the fuel is always
sufficient at `s.length`). -/
def pyReplaceAux : Nat → PyStr → PyStr → PyStr → PyStr
  | 0, s, _, _ => s
  | fuel + 1, s, pat, rep =>
    match s with
    | [] => []
    | c :: cs =>
      if !pat.isEmpty && pat.isPrefixOf s then
        rep ++ pyReplaceAux fuel (s.drop pat.length) pat rep
      else c :: pyReplaceAux fuel cs pat rep

/-- Python str.replace(pat, rep) for a nonempty pattern (the program only
replaces nonempty parameter names). -/
def pyReplace (s pat rep : PyStr) : PyStr := pyReplaceAux s.length s pat rep

/-- Everything of `s` before the first occurrence of `pat`:
Python s.split(pat)[0] for nonempty `pat`. -/
def takeUntilSub (pat : PyStr) : PyStr → PyStr
  | [] => []
  | c :: cs => if pat.isPrefixOf (c :: cs) then [] else c :: takeUntilSub pat cs

/-- Four spaces, matching `tab` in sql_script.py and clean_script.py. -/
def tab : PyStr := "    ".data

/-! ## clean_script.py -/

/-- clean_script.py `clean_order`: script type directory to DROP keyword, in
order (the TRIGGERS entry is commented out in the source). -/
def clean_order : List (PyStr × PyStr) :=
  [ ("VIEWS".data, "DROP VIEW".data),
    ("PROCEDURES".data, "DROP PROCEDURE".data),
    ("PACKAGES".data, "DROP PACKAGE".data),
    ("PACKAGE_BODIES".data, "DROP PACKAGE".data),
    ("FUNCTIONS".data, "DROP FUNCTION".data),
    ("REF_CONSTRAINTS".data, "DROP CONSTRAINT".data),
    ("CONSTRAINTS".data, "DROP CONSTRAINT".data),
    ("INDEXES".data, "DROP INDEX".data),
    ("TABLES".data, "DROP TABLE".data),
    ("SYNONYMS".data, "DROP SYNONYM".data),
    ("SEQUENCES".data, "DROP SEQUENCE".data) ]

/-- clean_script.py `script_starts`: keywords skipped while parsing CREATE
scripts. -/
def script_starts : List PyStr :=
  [ "CREATE".data, "OR".data, "REPLACE".data, "EDITIONABLE".data,
    "UNIQUE".data, "BODY".data, "FORCE".data ]

/-- clean_script.py `alter_keywords`: keywords skipped while parsing ALTER
scripts. -/
def alter_keywords : List PyStr :=
  [ "ALTER".data, "TABLE".data, "ADD".data, "CONSTRAINT".data ]

/-- clean_script.py `script_types`. -/
def script_types : List PyStr :=
  [ "SEQUENCE".data, "SYNONYM".data, "TABLE".data, "INDEX".data,
    "CONSTRAINT".data, "TRIGGER".data, "FUNCTION".data, "PACKAGE".data,
    "PROCEDURE".data, "VIEW".data ]

/-- clean_script.py `strippable_chars`. -/
def strippable_chars : List Char := ['\t', '\n', '(', ')']

/-- clean_script.py `type_to_dir`. -/
def type_to_dir : List (PyStr × PyStr) :=
  [ ("SEQUENCE".data, "SEQUENCES".data),
    ("SYNONYM".data, "SYNONYMS".data),
    ("TABLE".data, "TABLES".data),
    ("INDEX".data, "INDEXES".data),
    ("CONSTRAINT".data, "CONSTRAINTS".data),
    ("TRIGGER".data, "TRIGGERS".data),
    ("FUNCTION".data, "FUNCTIONS".data),
    ("PACKAGE".data, "PACKAGES".data),
    ("PROCEDURE".data, "PROCEDURES".data),
    ("VIEW".data, "VIEWS".data) ]

/-- The space-collapsing pass of `formatForParsing`: a character is kept
unless it equals the previous character and that previous character is a
space (`prev_char` starts at a space and is updated to the current character
each step, so exactly the second and later spaces of a run are dropped). -/
def dedupAux : Char → PyStr → PyStr
  | _, [] => []
  | prev, c :: cs =>
    if c == prev && prev == ' ' then dedupAux c cs else c :: dedupAux c cs

/-- clean_script.py `formatForParsing`: upper-case, replace each character of
`strippable_chars` by a space (the source replaces one character at a time,
which equals this pointwise map because every target becomes a space and a
space is not strippable), then collapse duplicated spaces. -/
def formatForParsing (s : PyStr) : PyStr :=
  dedupAux ' '
    ((pyUpper s).map (fun c => if strippable_chars.contains c then ' ' else c))

/-- The per-character effect of `formatForParsing` before space collapsing:
upper-case, then strippable characters become spaces. -/
def mapf (c : Char) : Char :=
  if strippable_chars.contains c.toUpper then ' ' else c.toUpper

/-- State of the CREATE scanner of clean_script.py `parseSqlCreates`:
`isCreate`, the last seen type keyword (`createType`, initially the empty
string), and the captured (type, name) pairs. -/
structure CreateState where
  isCreate : Bool
  createType : PyStr
  createStatements : List (PyStr × PyStr)
deriving DecidableEq, Repr

/-- One word of the `parseSqlCreates` loop (clean_script.py lines 191-212).
The terminator check (`word.endswith((';','/'))`) runs after the inner
if/elif chain, still inside the `elif isCreate` branch. -/
def createStep (st : CreateState) (word : PyStr) : CreateState :=
  if word == "CREATE".data then { st with isCreate := true }
  else if st.isCreate then
    let st1 :=
      if !script_starts.contains word && !script_types.contains word then
        { st with
            createStatements := st.createStatements ++ [(st.createType, word)],
            isCreate := false }
      else if script_types.contains word then { st with createType := word }
      else st
    if endsWithAny [';', '/'] word then { st1 with isCreate := false } else st1
  else st

/-- The CREATE scanner over a word list, from the initial state. -/
def parseCreatesWords (ws : List PyStr) : List (PyStr × PyStr) :=
  (ws.foldl createStep ⟨false, [], []⟩).createStatements

/-- The output loop of `parseSqlCreates` (lines 215-228): the module-global
`packages` list is threaded as state; an unknown type raises KeyError
(modelled as `Except.error ()`, e.g. for TRIGGERS, absent from
`clean_order`). -/
def createDrops (packages : List PyStr) (stmts : List (PyStr × PyStr)) :
    Except Unit (List PyStr × List PyStr) :=
  stmts.foldlM
    (fun (acc : List PyStr × List PyStr) st =>
      match List.lookup st.1 type_to_dir with
      | none => Except.error ()
      | some typedir =>
        if typedir == "PACKAGES".data || typedir == "PACKAGE_BODIES".data then
          if acc.1.contains st.2 then Except.ok acc
          else
            match List.lookup typedir clean_order with
            | none => Except.error ()
            | some dropkw =>
              Except.ok (acc.1 ++ [st.2],
                acc.2 ++ [dropkw ++ " ".data ++ st.2 ++ ";\n".data])
        else
          match List.lookup typedir clean_order with
          | none => Except.error ()
          | some dropkw =>
            Except.ok (acc.1, acc.2 ++ [dropkw ++ " ".data ++ st.2 ++ ";".data]))
    (packages, [])

/-- clean_script.py `parseSqlCreates` on the text of one file, with the
module-global `packages` list passed and returned explicitly. -/
def parseSqlCreates (packages : List PyStr) (filecontent : PyStr) :
    Except Unit (List PyStr × List PyStr) :=
  createDrops packages (parseCreatesWords (pySplit (formatForParsing filecontent)))

/-- One capture of the ALTER scanner: the dict
`alterStatements[index] = {'table': word}` later extended with a
'constraint' key. -/
structure AlterEntry where
  table : PyStr
  constraint : Option PyStr
deriving DecidableEq, Repr

/-- State of the ALTER scanner of clean_script.py `parseSqlAltersConstraint`. -/
structure AlterState where
  alterStatements : List (Nat × AlterEntry)
  index : Nat
  isAlter : Bool
  isAdd : Bool
  constraint : Bool
deriving DecidableEq, Repr

/-- Update the 'constraint' key of the entry at `i` (Python
`alterStatements[index]['constraint'] = word`). -/
def setConstraintName (m : List (Nat × AlterEntry)) (i : Nat) (w : PyStr) :
    List (Nat × AlterEntry) :=
  m.map (fun e => if e.1 == i then (e.1, { e.2 with constraint := some w }) else e)

/-- Remove the entry at key `i` (Python `alterStatements.pop(index)`; every
pop in the source runs with the key present, see the closure analysis in the
theorems below, so a total erase is faithful). -/
def eraseKey (m : List (Nat × AlterEntry)) (i : Nat) : List (Nat × AlterEntry) :=
  m.filter (fun e => !(e.1 == i))

/-- The initial state of the ALTER scanner. -/
def initAlterState : AlterState := ⟨[], 0, false, false, false⟩

/-- One word of the `parseSqlAltersConstraint` loop (clean_script.py lines
269-321).  The terminator check reads the variables as mutated by the
branch that ran on this same word (in particular a closure through the
second-non-keyword branch has already set `isAlter` to false, so the
terminator branch is skipped for it, exactly as in the source). -/
def alterStep (st : AlterState) (word : PyStr) : AlterState :=
  if word == "ALTER".data then { st with isAlter := true }
  else if st.isAlter then
    let st1 :=
      if word == "ADD".data then { st with isAdd := true }
      else if word == "CONSTRAINT".data then { st with constraint := true }
      else if !alter_keywords.contains word &&
          (List.lookup st.index st.alterStatements).isNone then
        { st with
            alterStatements := st.alterStatements ++ [(st.index, ⟨word, none⟩)] }
      else if !alter_keywords.contains word &&
          (List.lookup st.index st.alterStatements).isSome then
        let upd := setConstraintName st.alterStatements st.index word
        let upd2 := if !(st.isAdd && st.constraint) then eraseKey upd st.index else upd
        { st with alterStatements := upd2, isAlter := false, isAdd := false,
                  constraint := false, index := st.index + 1 }
      else st
    if endsWithAny [';', '/'] word && st1.isAlter then
      let upd :=
        if !(st1.isAdd && st1.constraint) then eraseKey st1.alterStatements st1.index
        else st1.alterStatements
      { st1 with alterStatements := upd, isAlter := false, isAdd := false,
                 constraint := false, index := st1.index + 1 }
    else st1
  else st

/-- The output loop of `parseSqlAltersConstraint` (lines 324-335): an entry
whose 'constraint' key was never written raises KeyError, modelled as
`Except.error ()`. -/
def alterOutput (m : List (Nat × AlterEntry)) : Except Unit (List PyStr) :=
  m.mapM (fun e =>
    match e.2.constraint with
    | none => Except.error ()
    | some cn =>
      Except.ok ("ALTER TABLE ".data ++ e.2.table ++ "\n".data ++ tab ++
        "DROP CONSTRAINT ".data ++ cn ++ ";\n/".data))

/-- The ALTER scanner applied to a word list, then the output loop. -/
def parseAltersOfWords (ws : List PyStr) : Except Unit (List PyStr) :=
  alterOutput ((ws.foldl alterStep initAlterState).alterStatements)

/-- clean_script.py `parseSqlAltersConstraint` on the text of one file. -/
def parseSqlAltersConstraint (filecontent : PyStr) : Except Unit (List PyStr) :=
  parseAltersOfWords (pySplit (formatForParsing filecontent))

/-! ## table.py -/

/-- LOB defaults read by table.py from the config file; the values are the
defaults written by config.py (`conf.json` section `lob-defaults`). -/
def lob_defaults_deduplication : PyStr := "Y".data

/-- Default LOB compression level (config.py). -/
def lob_defaults_compression : PyStr := "MEDIUM".data

/-- Default LOB caching flag (config.py). -/
def lob_defaults_caching : PyStr := "N".data

/-- Default LOB logging flag (config.py). -/
def lob_defaults_logging : PyStr := "Y".data

/-- table.py `default_kw`: keywords not wrapped in quotes as default values. -/
def default_kw : List PyStr :=
  [ "SYSDATE".data, "USER".data, "SYSTIMESTAMP".data ]

/-- One row of the schema file in keyed form: the keys of
`default_schema_row` in schema_generator.py, all defaulting to the empty
string. -/
structure CsvRow where
  schema : PyStr := []
  table : PyStr := []
  field : PyStr := []
  type : PyStr := []
  size : PyStr := []
  units : PyStr := []
  not_null : PyStr := []
  primary_key : PyStr := []
  default : PyStr := []
  index : PyStr := []
  sequence_start : PyStr := []
  pop_by_trigger : PyStr := []
  invisible : PyStr := []
  virtual : PyStr := []
  virtual_expr : PyStr := []
  check_constraint : PyStr := []
  lob_deduplication : PyStr := []
  lob_compression : PyStr := []
  lob_caching : PyStr := []
  lob_logging : PyStr := []
  fk_to_table : PyStr := []
  fk_to_field : PyStr := []
  gen_audit_columns : PyStr := []
  gen_history_tables : PyStr := []
  loader_package : PyStr := []
  loader_parent_table : PyStr := []
  table_comment : PyStr := []
  column_comment : PyStr := []
deriving DecidableEq, Repr

/-- schema_generator.py `default_schema_row` (all fields empty). -/
def default_schema_row : CsvRow := {}

/-- The dictionary returned by Column.getLobOptions. -/
structure LobOptions where
  lob_deduplication : Bool
  lob_compression : Option PyStr
  lob_caching : Bool
  lob_logging : Bool
deriving DecidableEq, Repr

/-- table.py `Column`, with the attribute defaults of `Column.__init__`.
`origrow` is the row saved by `load` (a Column that was never loaded keeps
the empty default row; the program only duplicates loaded columns). -/
structure Column where
  origrow : CsvRow := {}
  field : PyStr := []
  type : PyStr := []
  size : PyStr := []
  units : PyStr := []
  notnull : Bool := false
  primarykey : Bool := false
  default : Option PyStr := none
  indexed : Bool := false
  indexvalue : List PyStr := []
  unique : Bool := false
  sequenced : Bool := false
  sequencestart : Nat := 1
  sequencetouse : Option PyStr := none
  triggered : Bool := false
  invisible : Bool := false
  virtual : Bool := false
  virtualexpr : Option PyStr := none
  checkconstraint : Option PyStr := none
  fksourcetable : Option PyStr := none
  fksourcefield : Option PyStr := none
  comment : Option PyStr := none
  lob_dedup : Bool := false
  lob_compress : Option PyStr := none
  lob_cache : Bool := false
  lob_logging : Bool := false
deriving DecidableEq, Repr

/-- The index-marker loop of Column.load (table.py lines 623-635): for each
comma-separated piece of the upper-cased index cell, a lone Y or U marks an
individual (possibly unique) index, while Y<digits> or U<digits> adds a
compound-index cluster tag.  (On an empty piece the source would raise
IndexError at `i[0]`; the inputs of this development have no empty piece,
and the model skips one.) -/
def loadIndexPiece (c : Column) (i : PyStr) : Column :=
  if i == "Y".data || i == "U".data then
    let c := { c with indexed := true }
    if i == "U".data then { c with unique := true } else c
  else
    match i with
    | [] => c
    | ch :: rest =>
      if (ch == 'Y' || ch == 'U') && pyIsDigit rest then
        { c with indexvalue := c.indexvalue ++ [i] }
      else c

/-- Column.load, size handling (table.py lines 589-602). -/
def loadSize (row : CsvRow) (c : Column) : Column :=
  if pyIsDigit row.size && (c.type == "VARCHAR2".data || c.type == "CHAR".data) then
    let tempsize := pyToNat row.size
    if tempsize < 1 then { c with size := [] }
    else if tempsize > 4000 then { c with size := "4000".data }
    else { c with size := row.size }
  else if c.type == "NUMBER".data && !row.size.isEmpty then { c with size := row.size }
  else c

/-- Column.load, units / not-null / primary-key flags (lines 604-614). -/
def loadFlags (row : CsvRow) (c : Column) : Column :=
  let c :=
    if pyUpper row.units == "BYTE".data || pyUpper row.units == "CHAR".data then
      { c with units := pyUpper row.units }
    else c
  let c := if pyUpper row.not_null == "Y".data then { c with notnull := true } else c
  if pyUpper row.primary_key == "Y".data then { c with primarykey := true } else c

/-- Column.load, default value (lines 616-621): character defaults are
quoted unless listed in `default_kw`. -/
def loadDefault (row : CsvRow) (c : Column) : Column :=
  if !row.default.isEmpty then
    let d := row.default
    if (c.type == "VARCHAR2".data || c.type == "CHAR".data) &&
        !default_kw.contains (pyUpper d) then
      { c with default := some ("'".data ++ d ++ "'".data) }
    else { c with default := some d }
  else c

/-- Column.load, sequence policy (lines 637-650). -/
def loadSequence (row : CsvRow) (c : Column) : Column :=
  if pyIsDigit row.sequence_start then
    let c := { c with sequenced := true, sequencestart := pyToNat row.sequence_start }
    if pyUpper row.pop_by_trigger == "Y".data then { c with triggered := true } else c
  else if !row.sequence_start.isEmpty then
    let c := { c with sequenced := true, sequencetouse := some row.sequence_start }
    if pyUpper row.pop_by_trigger == "Y".data then { c with triggered := true } else c
  else c

/-- Column.load, invisible / virtual / check constraint / FK / comment
(lines 652-676). -/
def loadExtras (row : CsvRow) (c : Column) : Column :=
  let c := if pyUpper row.invisible == "Y".data then { c with invisible := true } else c
  let c :=
    if (c.type == "DATE".data || c.type == "VARCHAR2".data || c.type == "CHAR".data ||
        c.type == "NUMBER".data || c.type == "TIMESTAMP".data) &&
        pyUpper row.virtual == "Y".data && !row.virtual_expr.isEmpty then
      { c with virtual := true, virtualexpr := some row.virtual_expr }
    else c
  let c :=
    if !row.check_constraint.isEmpty then
      { c with checkconstraint := some (pyStrip row.check_constraint) }
    else c
  let c :=
    if !row.fk_to_table.isEmpty && !row.fk_to_field.isEmpty then
      { c with fksourcetable := some row.fk_to_table,
               fksourcefield := some row.fk_to_field }
    else c
  if !row.column_comment.isEmpty then
    { c with comment := some (pyStripSet ['\''] row.column_comment) }
  else c

/-- Column.load, LOB options for BLOB/CLOB (lines 678-712): per-column value
when valid, else the config default. -/
def loadLob (row : CsvRow) (c : Column) : Column :=
  if c.type == "BLOB".data || c.type == "CLOB".data then
    let c :=
      if pyUpper row.lob_deduplication == "Y".data then { c with lob_dedup := true }
      else if pyUpper row.lob_deduplication == "N".data then { c with lob_dedup := false }
      else if pyUpper lob_defaults_deduplication == "Y".data then { c with lob_dedup := true }
      else c
    let c :=
      if (pyUpper row.lob_compression == "N".data || pyUpper row.lob_compression == "LOW".data ||
          pyUpper row.lob_compression == "MEDIUM".data || pyUpper row.lob_compression == "HIGH".data) then
        { c with lob_compress := some (pyUpper row.lob_compression) }
      else if (pyUpper lob_defaults_compression == "N".data ||
          pyUpper lob_defaults_compression == "LOW".data ||
          pyUpper lob_defaults_compression == "MEDIUM".data ||
          pyUpper lob_defaults_compression == "HIGH".data) then
        { c with lob_compress := some (pyUpper lob_defaults_compression) }
      else c
    let c :=
      if pyUpper row.lob_caching == "Y".data then { c with lob_cache := true }
      else if pyUpper row.lob_caching == "N".data then { c with lob_cache := false }
      else if pyUpper lob_defaults_caching == "Y".data then { c with lob_cache := true }
      else c
    if pyUpper row.lob_logging == "Y".data then { c with lob_logging := true }
    else if pyUpper row.lob_logging == "N".data then { c with lob_logging := false }
    else if pyUpper lob_defaults_logging == "Y".data then { c with lob_logging := true }
    else c
  else c

/-- Column.load, compound-index markers (lines 623-635). -/
def loadIndex (row : CsvRow) (c : Column) : Column :=
  if !row.index.isEmpty then
    (pySplitOn ',' (pyUpper row.index)).foldl loadIndexPiece c
  else c

/-- table.py Column.load: populate a fresh Column from a CSV row, in the
source's statement order. -/
def Column.load (row : CsvRow) : Column :=
  loadLob row (loadExtras row (loadSequence row (loadIndex row (loadDefault row
    (loadFlags row (loadSize row
      { origrow := row, field := pyUpper row.field, type := pyUpper row.type }))))))

/-- table.py Column.getTypeString. -/
def Column.getTypeString (c : Column) : PyStr :=
  if pyUpper c.type == "CHAR".data || pyUpper c.type == "VARCHAR2".data ||
      pyUpper c.type == "NUMBER".data then
    if pyIsDigit c.size && !c.units.isEmpty then
      c.type ++ "(".data ++ c.size ++ " ".data ++ c.units ++ ")".data
    else if !c.size.isEmpty then
      c.type ++ "(".data ++ c.size ++ ")".data
    else c.type
  else c.type

/-- Python's rendering of an optional string inside an f-string (None prints
as the text "None"; the program never reaches that case with None). -/
def optStr : Option PyStr → PyStr
  | some s => s
  | none => "None".data

/-- table.py Column.getOptionsString. -/
def Column.getOptionsString (c : Column) : PyStr :=
  let outString : PyStr := []
  let outString := if c.invisible then "INVISIBLE".data else outString
  let outString :=
    if c.virtual then
      outString ++ "    AS (".data ++ optStr c.virtualexpr ++ ") VIRTUAL".data
    else
      let outString :=
        match c.default with
        | some d => outString ++ "    DEFAULT ".data ++ d
        | none => outString
      if c.notnull then outString ++ "    NOT NULL".data else outString
  pyStrip outString

/-- table.py Column.getLobOptions. -/
def Column.getLobOptions (c : Column) : Option LobOptions :=
  if c.type == "BLOB".data || c.type == "CLOB".data then
    some ⟨c.lob_dedup, c.lob_compress, c.lob_cache, c.lob_logging⟩
  else none

/-- table.py Column.duplicateColumn: rebuild from the saved original row. -/
def Column.duplicateColumn (c : Column) : Column := Column.load c.origrow

/-- The tuples of Table.genColumnList:
(field, type string, options string, LOB options). -/
abbrev ColTup := PyStr × PyStr × PyStr × Option LobOptions

/-- table.py `Table`, with the attributes of `Table.__init__`.  `compindex`
is the insertion-ordered dict of compound-index clusters. -/
structure Table where
  schema : PyStr
  name : PyStr
  columns : List Column := []
  comment : PyStr := []
  tableNumber : Nat := 1
  tablespace : PyStr
  sourcetable : PyStr := []
  primarykeys : List Column := []
  compindex : List (PyStr × List Column) := []
  compindexfields : List (PyStr × List PyStr) := []
  columnList : List ColTup := []
  needsaudit : Bool := false
  needshistory : Bool := false
  ishistory : Bool := false
  indexcount : Nat := 1
  fkcount : Nat := 1
deriving DecidableEq, Repr

/-- table.py Table.__init__ (the tablespace is the upper-cased schema with
everything from the first '_OWNER' on removed, i.e.
`schema.upper().split('_OWNER')[0]`). -/
def Table.init (schema tablename genAudit genHistory comment : PyStr)
    (tableNumber : Nat) (historyTable : Bool) (histSourceTableName : PyStr) :
    Table :=
  { schema := schema
    name := tablename
    comment := comment
    tableNumber := tableNumber
    tablespace := takeUntilSub "_OWNER".data (pyUpper schema)
    sourcetable := histSourceTableName
    ishistory := historyTable
    needsaudit := pyUpper genAudit == "Y".data
    needshistory := pyUpper genHistory == "Y".data }

/-- Append `col` to the cluster keyed `idx` of `compindex`, creating the
cluster at the end if absent (Python dict insertion order). -/
def compindexAdd (m : List (PyStr × List Column)) (idx : PyStr) (col : Column) :
    List (PyStr × List Column) :=
  if (List.lookup idx m).isSome then
    m.map (fun e => if e.1 == idx then (e.1, e.2 ++ [col]) else e)
  else m ++ [(idx, [col])]

/-- table.py Table.addColumn. -/
def Table.addColumn (t : Table) (col : Column) : Table :=
  let t := if col.primarykey then { t with primarykeys := t.primarykeys ++ [col] } else t
  let t := { t with compindex := col.indexvalue.foldl (fun m i => compindexAdd m i col) t.compindex }
  { t with columns := t.columns ++ [col] }

/-- The attribute resets of Table.addColumnsForHistory (table.py lines
202-214). -/
def historyResetColumn (col : Column) : Column :=
  { col with notnull := false, primarykey := false, default := none,
             indexed := false, indexvalue := [], unique := false,
             sequenced := false, sequencestart := 1, triggered := false,
             fksourcetable := none, fksourcefield := none,
             virtual := false, virtualexpr := none }

/-- table.py Table.addColumnsForHistory: duplicate each column, reset its
constraint attributes, and add it. -/
def Table.addColumnsForHistory (t : Table) (cols : List Column) : Table :=
  cols.foldl (fun t column => t.addColumn (historyResetColumn column.duplicateColumn)) t

/-- The tuple Table.genColumnList records per column. -/
def tupleOfColumn (c : Column) : ColTup :=
  (c.field, c.getTypeString, c.getOptionsString, c.getLobOptions)

/-- table.py Table.genColumnList: regenerate the cached `columnList` only
when its length differs from the column count; returns the updated table
and the list. -/
def Table.genColumnList (t : Table) : Table × List ColTup :=
  if t.columnList.length != t.columns.length then
    let l := t.columns.map tupleOfColumn
    ({ t with columnList := l }, l)
  else (t, t.columnList)

/-- table.py Table.hasCompoundPK. -/
def Table.hasCompoundPK (t : Table) : Bool := 1 < t.primarykeys.length

/-- table.py Table.getPKFields. -/
def Table.getPKFields (t : Table) : List PyStr := t.primarykeys.map (fun c => c.field)

/-- The dict-iteration of Table.cleanCompoundIndex: Python iterates the live
keys view while popping.  CPython's dict iterator compares the dict's size
against the size at iterator creation on every `next()` call (including the
final one that would report exhaustion) and raises RuntimeError when they
differ; `ks` is the snapshot of the keys in order and `initSize` the size at
creation. -/
def cleanLoop (initSize : Nat) : List PyStr → List (PyStr × List Column) →
    Except Unit (List (PyStr × List Column))
  | [], m => if m.length != initSize then Except.error () else Except.ok m
  | k :: ks, m =>
    if m.length != initSize then Except.error ()
    else
      let m :=
        if (match List.lookup k m with | some l => l.length | none => 0) < 2 then
          m.filter (fun e => !(e.1 == k))
        else m
      cleanLoop initSize ks m

/-- table.py Table.cleanCompoundIndex (lines 283-288): remove clusters with
fewer than 2 members; a removal changes the dict's size during iteration,
which raises RuntimeError (`Except.error ()`). -/
def Table.cleanCompoundIndex (t : Table) : Except Unit Table :=
  match cleanLoop t.compindex.length (t.compindex.map (fun e => e.1)) t.compindex with
  | Except.error e => Except.error e
  | Except.ok m => Except.ok { t with compindex := m }

/-- table.py spawnAuditColumns: the U_NAME and U_DATE columns. -/
def spawnAuditColumns (schema tablename : PyStr) : Column × Column :=
  let u_name : CsvRow :=
    { default_schema_row with
        schema := schema, table := tablename, field := "U_NAME".data,
        type := "VARCHAR2".data, size := "250".data, units := "CHAR".data,
        not_null := "Y".data, default := "USER".data,
        column_comment := "User Name for audit logging purposes".data }
  let u_date : CsvRow :=
    { default_schema_row with
        schema := schema, table := tablename, field := "U_DATE".data,
        type := "DATE".data, not_null := "Y".data, default := "SYSDATE".data,
        column_comment := "Date / Time for audit logging purposes".data }
  (Column.load u_name, Column.load u_date)

/-- table.py spawnHistoryColumns: HIST_ID, CHANGE, CHANGE_DATE, CHANGE_USER
(the returned tuple, as a list in tuple order). -/
def spawnHistoryColumns (schema tablename : PyStr) : List Column :=
  let hist_id : CsvRow :=
    { default_schema_row with
        schema := schema, table := tablename, field := "HIST_ID".data,
        type := "NUMBER".data, not_null := "Y".data, primary_key := "Y".data,
        sequence_start := "1".data, pop_by_trigger := "Y".data,
        column_comment := "Unique ID for History record".data }
  let change : CsvRow :=
    { default_schema_row with
        schema := schema, table := tablename, field := "CHANGE".data,
        type := "VARCHAR2".data, size := "10".data, units := "CHAR".data,
        not_null := "Y".data,
        column_comment := "Type of change performed".data }
  let changedate : CsvRow :=
    { default_schema_row with
        schema := schema, table := tablename, field := "CHANGE_DATE".data,
        type := "DATE".data, not_null := "Y".data, default := "SYSDATE".data,
        column_comment := "Time of change performed".data }
  let changeuser : CsvRow :=
    { default_schema_row with
        schema := schema, table := tablename, field := "CHANGE_USER".data,
        type := "VARCHAR2".data, size := "50".data, units := "CHAR".data,
        not_null := "Y".data, default := "USER".data,
        column_comment := "DB USER that performed change".data }
  [Column.load hist_id, Column.load change, Column.load changedate,
   Column.load changeuser]

/-- table.py Table.genAuditColumns: when `needsaudit` is set, add the two
audit columns (there is no guard against calling it again). -/
def Table.genAuditColumns (t : Table) : Table :=
  if t.needsaudit then
    let cols := spawnAuditColumns t.schema t.name
    (t.addColumn cols.1).addColumn cols.2
  else t

/-- table.py Table.genHistoryTable: a new `H_<name>` table with the four
history columns first, then every original column duplicated with
constraints reset; nothing when history is not requested.  `tableNum` is
the optional argument (None defaults to the table's own number). -/
def Table.genHistoryTable (t : Table) (tableNum : Option Nat) : Option Table :=
  if t.needshistory then
    let tn := match tableNum with | none => t.tableNumber | some n => n
    let histTable := Table.init t.schema ("H_".data ++ t.name) "N".data "N".data
      ("History table for ".data ++ t.name) tn true t.name
    let histTable := (spawnHistoryColumns t.schema t.name).foldl
      (fun tb col => tb.addColumn col) histTable
    some (histTable.addColumnsForHistory t.columns)
  else none

/-! ## sql_script.py -/

/-- Formatting threshold from the config defaults (config.py `split_on`). -/
def split_on : Nat := 100

/-- Formatting threshold from the config defaults (config.py
`table_min_spacing`). -/
def table_min_spacing : Nat := 30

/-- Config default: loader-package `enforce-char-lengths`. -/
def loader_package_charlimit : Bool := false

/-- Config default: loader-package `use-logging`. -/
def loader_package_logging : Bool := false

/-- `' ' * n` (for a negative Python operand the result is empty, which the
truncated `Nat` subtraction at every call site reproduces). -/
def spaces (n : Nat) : PyStr := List.replicate n ' '

/-- sql_script.py lobAsSecureFile: the LOB STORE AS SECUREFILE subscript. -/
def lobAsSecureFile (column tablespace : PyStr) (loboptions : LobOptions) : PyStr :=
  let dedup := if loboptions.lob_deduplication then "DEDUPLICATE".data else "KEEP_DUPLICATES".data
  let compress :=
    match loboptions.lob_compression with
    | some lv =>
      if lv == "LOW".data || lv == "MEDIUM".data || lv == "HIGH".data then
        "COMPRESS".data ++ tab ++ lv
      else "NOCOMPRESS".data
    | none => "NOCOMPRESS".data
  let cache := if loboptions.lob_caching then "CACHE".data else "NOCACHE".data
  let log := if loboptions.lob_logging then "LOGGING".data else "NOLOGGING".data
  "LOB (".data ++ column ++ ") STORE AS SECUREFILE (\n".data ++
  tab ++ "TABLESPACE ".data ++ tablespace ++ "\n".data ++
  tab ++ "ENABLE".data ++ tab ++ "STORAGE IN ROW\n".data ++
  tab ++ "CHUNK".data ++ tab ++ "8192\n".data ++
  tab ++ "RETENTION\n".data ++
  tab ++ dedup ++ "\n".data ++
  tab ++ compress ++ "\n".data ++
  tab ++ cache ++ "\n".data ++
  tab ++ log ++ "\n".data ++
  ")".data

/-- The `columnsFormatted` accumulation of writeTableScript (sql_script.py
lines 72-93), before the trailing `,\n` is stripped. -/
def writeTableScriptColumnsFormatted (columns : List ColTup) : PyStr :=
  columns.foldl
    (fun acc col =>
      let spacing :=
        if table_min_spacing ≤ col.1.length then spaces 2
        else spaces (table_min_spacing - col.1.length)
      if col.2.2.1.isEmpty then
        acc ++ tab ++ col.1 ++ spacing ++ col.2.1 ++ ",\n".data
      else
        let spacing2 := spaces (table_min_spacing - col.2.1.length)
        acc ++ tab ++ col.1 ++ spacing ++ col.2.1 ++ spacing2 ++
          pyLstrip col.2.2.1 ++ ",\n".data)
    []

/-- The `lobString` block of writeTableScript (lines 71-77 and 100-103):
each column with LOB options contributes its subscript followed by a
newline. -/
def writeTableScriptLobs (columns : List ColTup) (tablespace : PyStr) : PyStr :=
  (columns.filterMap (fun col => col.2.2.2.map (lobAsSecureFile col.1 tablespace))).foldl
    (fun acc lob => acc ++ lob ++ "\n".data) []

/-- The part of the CREATE TABLE script between `(\n` and `TABLESPACE`: the
stripped column block, the closing bracket, and the LOB block. -/
def tableScriptBody (columns : List ColTup) (tablespace : PyStr) : PyStr :=
  pyRstripSet [',', '\n'] (writeTableScriptColumnsFormatted columns) ++
  "\n)\n".data ++ writeTableScriptLobs columns tablespace

/-- sql_script.py writeTableScript: the text written to `<tablename>.sql`
(the file write itself is outside the embedding). -/
def writeTableScriptText (schema tablename : PyStr) (columns : List ColTup)
    (tablespace : PyStr) : PyStr :=
  "prompt --Adding ".data ++ schema ++ ".".data ++ tablename ++ " table\n\n".data ++
  "CREATE TABLE ".data ++ schema ++ ".".data ++ tablename ++ "\n".data ++
  "(\n".data ++
  tableScriptBody columns tablespace ++
  "TABLESPACE ".data ++ tablespace ++ ";\n/\n".data

/-- The numeric suffix convention of index and FK names (sql_script.py lines
225-229 and 585-589): a count of 1 yields no suffix, any other count is
printed. -/
def countSuffix (count : Nat) : PyStr :=
  if count == 1 then [] else (toString count).data

/-- sql_script.py writePKConstraintScript: the constraint text (named after
the index, `USING INDEX` referencing it). -/
def writePKConstraintScriptText (schema tablename index field : PyStr) : PyStr :=
  "prompt --Adding ".data ++ schema ++ ".".data ++ index ++ " constraint for ".data ++
    field ++ "\n\n".data ++
  "ALTER TABLE ".data ++ schema ++ ".".data ++ tablename ++ " ADD (\n".data ++
  tab ++ "CONSTRAINT ".data ++ index ++ "\n".data ++
  tab ++ "PRIMARY KEY".data ++ "\n".data ++
  tab ++ "(".data ++ field ++ ")\n".data ++
  tab ++ "USING INDEX ".data ++ schema ++ ".".data ++ index ++ "\n".data ++
  ");\n/\n\n".data

/-- sql_script.py writeUniqueConstraintScript: the constraint text. -/
def writeUniqueConstraintScriptText (schema tablename index field : PyStr) : PyStr :=
  "prompt --Adding ".data ++ index ++ " unique constraint\n\n".data ++
  "ALTER TABLE ".data ++ schema ++ ".".data ++ tablename ++ " ADD (\n".data ++
  tab ++ "CONSTRAINT ".data ++ index ++ "\n".data ++
  tab ++ "UNIQUE".data ++ "\n".data ++
  tab ++ "(".data ++ field ++ ")\n".data ++
  ");\n/\n\n".data

/-- What one call of sql_script.py writeIndexScript produces: the chosen
CREATE clause and key type, the index name, the index script text, the
constraint script it cascades to (PK, or unique for a non-PK unique index),
and the warning log lines it emits. -/
structure IndexScriptOutput where
  create : PyStr
  keyType : PyStr
  number : PyStr
  indexName : PyStr
  indexText : PyStr
  pkConstraintText : Option PyStr
  uniqueConstraintText : Option PyStr
  warnings : List PyStr
deriving DecidableEq, Repr

/-- sql_script.py writeIndexScript (lines 178-251): a primary key that is
not marked unique is still rendered `CREATE UNIQUE INDEX`, with a warning
logged; a PK index cascades to writePKConstraintScript, a non-PK unique
index to writeUniqueConstraintScript. -/
def writeIndexScript (schema tablename tablespace field : PyStr)
    (count : Nat) (primaryKey unique : Bool) : IndexScriptOutput :=
  let cw : PyStr × PyStr × List PyStr :=
    if unique && primaryKey then ("CREATE UNIQUE INDEX".data, "PK".data, [])
    else if unique then ("CREATE UNIQUE INDEX".data, "UI".data, [])
    else if primaryKey then
      ("CREATE UNIQUE INDEX".data, "PK".data,
        ["Primary Key must be unique. Script will reflect this.".data])
    else ("CREATE INDEX".data, "NI".data, [])
  let number := countSuffix count
  let indexName := tablename ++ "_".data ++ cw.2.1 ++ number
  let toWrite :=
    "prompt --Adding ".data ++ schema ++ ".".data ++ indexName ++
      " index for ".data ++ field ++ "\n\n".data ++
    cw.1 ++ " ".data ++ schema ++ ".".data ++ indexName ++ " ON ".data ++
      schema ++ ".".data ++ tablename ++ "\n".data ++
    "(".data ++ field ++ ")\n".data ++
    "TABLESPACE ".data ++ tablespace ++ ";\n/\n\n".data
  { create := cw.1
    keyType := cw.2.1
    number := number
    indexName := indexName
    indexText := toWrite
    pkConstraintText :=
      if primaryKey then
        some (writePKConstraintScriptText schema tablename indexName field)
      else none
    uniqueConstraintText :=
      if !primaryKey && unique then
        some (writeUniqueConstraintScriptText schema tablename indexName field)
      else none
    warnings := cw.2.2 }

/-- The FK constraint name of writeFKConstraintScript
(`{boundtable}_{boundfield}_FK{number}`). -/
def fkConstraintName (boundtable boundfield : PyStr) (count : Nat) : PyStr :=
  boundtable ++ "_".data ++ boundfield ++ "_FK".data ++ countSuffix count

/-- sql_script.py writeFKConstraintScript (lines 558-606): the constraint
text. -/
def writeFKConstraintScriptText (schema sourcetable sourcefield boundtable
    boundfield : PyStr) (count : Nat) : PyStr :=
  let name := fkConstraintName boundtable boundfield count
  "prompt --Adding ".data ++ schema ++ ".".data ++ name ++ " constraint for ".data ++
    sourcefield ++ "\n\n".data ++
  "ALTER TABLE ".data ++ schema ++ ".".data ++ boundtable ++ " ADD (\n".data ++
  tab ++ "CONSTRAINT ".data ++ name ++ "\n".data ++
  tab ++ "FOREIGN KEY (".data ++ boundfield ++ ")\n".data ++
  tab ++ "REFERENCES ".data ++ schema ++ ".".data ++ sourcetable ++ " (".data ++
    sourcefield ++ ")\n".data ++
  ");\n/\n\n".data

/-- The per-schema loader accumulator (sql_script.py `package_template`:
parallel header and body lists). -/
structure PackageAcc where
  header : List PyStr := []
  body : List PyStr := []
deriving DecidableEq, Repr

/-- The column-collection phase of addInsertUpdateToLoaderPackage
(sql_script.py lines 1036-1053): pairs of (column, owning table name), the
upper-cased parent table names, and `parentLoadColumns` as left after the
loop (reset at each parent, so finally the filtered columns of the last
parent). -/
structure LoaderCollect where
  columns : List (Column × PyStr) := []
  parentLoadColumns : List Column := []
  tablenames : List PyStr := []
deriving Repr

/-- One table of the collection phase. -/
def collectLoaderTable (tablename : PyStr) (st : LoaderCollect) (table : Table) :
    LoaderCollect :=
  let isParent := !(table.name == tablename)
  let st :=
    if isParent then
      { st with tablenames := st.tablenames ++ [pyUpper table.name],
                parentLoadColumns := [] }
    else st
  table.columns.foldl
    (fun st col =>
      if !col.virtual || col.primarykey then
        let st := { st with columns := st.columns ++ [(col, table.name)] }
        if isParent then
          { st with parentLoadColumns := st.parentLoadColumns ++ [col] }
        else st
      else st)
    st

/-- The collection phase over the child-to-ancestor table list. -/
def collectLoaderColumns (tablename : PyStr) (tables : List Table) : LoaderCollect :=
  tables.foldl (collectLoaderTable tablename) {}

/-- The mutable locals of the main formatting loop of
addInsertUpdateToLoaderPackage (lines 1060-1071). -/
structure LoaderIUState where
  formatted_params_all : PyStr := []
  formatted_insert_columns : PyStr := tab ++ tab ++ tab
  formatted_insert_values : PyStr := tab ++ tab ++ tab
  formatted_update_columns : PyStr := []
  formatted_update_where : PyStr := []
  count_split : Nat := 1
  firstCol : Bool := true
  firstTable : Bool := true
  fieldsUsed : List PyStr := []
  primaryKey : Option Column := none
  firstPrimary : Bool := true
  parentLoadParams : PyStr := []
deriving Repr

/-- Whether the column's FK source table lies in the parent chain
(`col.fksourcetable != None and col.fksourcetable.upper() in tablenames`). -/
def fkInChain (tablenames : List PyStr) (col : Column) : Bool :=
  match col.fksourcetable with
  | some t => tablenames.contains (pyUpper t)
  | none => false

/-- The primary-key / IN-OUT branch of the loop (lines 1090-1115): returns
the io tag pair, `excludeIU`, `defaultNull`, and the state (which a second
primary key mutates by renaming its `p_in_` parameter to `p_io_` in the
four formatted strings). -/
def loaderIoBranch (tablenames : List PyStr) (hasMultiTable : Bool)
    (col : Column) (name : PyStr) (s : LoaderIUState) :
    (PyStr × PyStr) × Bool × PyStr × LoaderIUState :=
  if s.firstPrimary && col.primarykey then
    (("IN OUT".data, "io".data), true, [],
      { s with primaryKey := some col, firstPrimary := false })
  else if col.primarykey then
    let oldio := "p_in_".data ++ pyLower name
    let newio := "p_io_".data ++ pyLower name
    (("IN OUT".data, "io".data), true, [],
      { s with
          formatted_insert_columns := pyReplace s.formatted_insert_columns oldio newio,
          formatted_insert_values := pyReplace s.formatted_insert_values oldio newio,
          formatted_update_columns := pyReplace s.formatted_update_columns oldio newio,
          formatted_update_where := pyReplace s.formatted_update_where oldio newio })
  else
    let dn :=
      if !col.notnull || col.default.isSome then tab ++ "DEFAULT NULL".data
      else if hasMultiTable && fkInChain tablenames col then tab ++ "DEFAULT NULL".data
      else if col.triggered then tab ++ "DEFAULT NULL".data
      else []
    (("IN".data, "in".data), false, dn, s)

/-- The string-emitting tail of one loop iteration of
addInsertUpdateToLoaderPackage (lines 1135-1167): the
firstCol / firstTable / parent-table branches.  Only the formatted-string
fields, the flags `firstCol`, and `parentLoadParams` are written here. -/
def loaderEmitStep (name ctype spacing newline insert_value defaultNull : PyStr)
    (io : PyStr × PyStr) (excludeIU excludeParams : Bool)
    (parentLoadColumns : List Column) (col : Column) (s : LoaderIUState) :
    LoaderIUState :=
  if s.firstCol then
    let s :=
      { s with
          formatted_params_all := s.formatted_params_all ++ tab ++ tab ++
            "p_".data ++ io.2 ++ "_".data ++ pyLower name ++ spacing ++ io.1 ++
            tab ++ tab ++ ctype ++ defaultNull ++ "\n".data }
    let s :=
      if !excludeIU then
        { s with
            formatted_insert_columns := s.formatted_insert_columns ++ newline ++ tab ++ name,
            formatted_insert_values := s.formatted_insert_values ++ newline ++ tab ++ insert_value,
            formatted_update_columns := s.formatted_update_columns ++ tab ++ tab ++ tab ++
              name ++ " = ".data ++ insert_value ++ "\n".data,
            formatted_update_where := s.formatted_update_where ++ newline ++
              insert_value ++ "\n".data }
      else s
    { s with firstCol := false }
  else if s.firstTable then
    let s :=
      if !excludeParams then
        { s with
            formatted_params_all := s.formatted_params_all ++ tab ++ tab ++ ", p_".data ++
              io.2 ++ "_".data ++ pyLower name ++ spacing ++ io.1 ++ tab ++ tab ++
              ctype ++ defaultNull ++ "\n".data }
      else s
    if !excludeIU && s.formatted_update_columns.isEmpty then
      { s with
          formatted_insert_columns := s.formatted_insert_columns ++ newline ++ tab ++ name,
          formatted_insert_values := s.formatted_insert_values ++ newline ++ tab ++ insert_value,
          formatted_update_columns := s.formatted_update_columns ++ tab ++ tab ++ tab ++ tab ++
            name ++ " = ".data ++ insert_value ++ "\n".data,
          formatted_update_where := s.formatted_update_where ++ tab ++ tab ++ tab ++ tab ++
            "((".data ++ name ++ " IS NULL AND ".data ++ insert_value ++
            " IS NOT NULL) ".data ++ "OR (".data ++ name ++ " IS NOT NULL AND ".data ++
            insert_value ++ " IS NULL) ".data ++ "OR (".data ++ name ++ " <> ".data ++
            insert_value ++ "))\n".data }
    else if !excludeIU then
      { s with
          formatted_insert_columns := s.formatted_insert_columns ++ newline ++ ", ".data ++ name,
          formatted_insert_values := s.formatted_insert_values ++ newline ++ ", ".data ++ insert_value,
          formatted_update_columns := s.formatted_update_columns ++ tab ++ tab ++ tab ++ tab ++
            ", ".data ++ name ++ " = ".data ++ insert_value ++ "\n".data,
          formatted_update_where := s.formatted_update_where ++ tab ++ tab ++ tab ++ tab ++
            "OR ((".data ++ name ++ " IS NULL AND ".data ++ insert_value ++
            " IS NOT NULL) ".data ++ "OR (".data ++ name ++ " IS NOT NULL AND ".data ++
            insert_value ++ " IS NULL) ".data ++ "OR (".data ++ name ++ " <> ".data ++
            insert_value ++ "))\n".data }
    else s
  else
    let s :=
      if !excludeParams then
        { s with
            formatted_params_all := s.formatted_params_all ++ tab ++ tab ++ ", p_".data ++
              io.2 ++ "_".data ++ pyLower name ++ spacing ++ io.1 ++ tab ++ tab ++
              ctype ++ defaultNull ++ "\n".data }
      else s
    match parentLoadColumns with
    | [] => s
    | p0 :: _ =>
      if col == p0 then
        { s with parentLoadParams := tab ++ tab ++ tab ++ "p_".data ++ io.2 ++ "_".data ++
            pyLower name ++ " => p_".data ++ io.2 ++ "_".data ++ pyLower name ++ "\n".data }
      else
        { s with parentLoadParams := s.parentLoadParams ++ tab ++ tab ++ tab ++ ", p_".data ++
            io.2 ++ "_".data ++ pyLower name ++ " => p_".data ++ io.2 ++ "_".data ++
            pyLower name ++ "\n".data }

/-- One (column, table-name) pair of the main loop of
addInsertUpdateToLoaderPackage (lines 1072-1167): note the switch of
`firstTable`, the duplicate-parameter exclusion, the IN-OUT branch, the
spacing and soft line-wrap bookkeeping, and the emission branches
(`loaderEmitStep`). -/
def insertUpdateStep (tablename : PyStr) (tablenames : List PyStr)
    (hasMultiTable : Bool) (parentLoadColumns : List Column)
    (s : LoaderIUState) (colp : Column × PyStr) : LoaderIUState :=
  let col := colp.1
  let name := pyUpper col.field
  let ctype := pyUpper col.type
  let s := if s.firstTable && !(colp.2 == tablename) then { s with firstTable := false } else s
  let ep :=
    if s.fieldsUsed.contains name then (true, s)
    else if fkInChain tablenames col then (true, s)
    else (false, { s with fieldsUsed := s.fieldsUsed ++ [name] })
  let excludeParams := ep.1
  let s := ep.2
  let br := loaderIoBranch tablenames hasMultiTable col name s
  let io := br.1
  let excludeIU := br.2.1
  let defaultNull := br.2.2.1
  let s := br.2.2.2
  let spacing :=
    if table_min_spacing < name.length then spaces 2
    else spaces (table_min_spacing - name.length)
  let nl :=
    if split_on * s.count_split ≤ s.formatted_insert_values.length then
      ("\n".data ++ tab ++ tab ++ tab ++ tab, { s with count_split := s.count_split + 1 })
    else ([], s)
  let newline := nl.1
  let s := nl.2
  let insert_value :=
    if loader_package_charlimit && ctype == "VARCHAR2".data then
      "substr(trim(p_".data ++ io.2 ++ "_".data ++ pyLower name ++ "), 1, ".data ++
        col.size ++ ")".data
    else "p_".data ++ io.2 ++ "_".data ++ pyLower name
  loaderEmitStep name ctype spacing newline insert_value defaultNull io excludeIU
    excludeParams parentLoadColumns col s

/-- The fixed output parameters appended after the loop (lines 1169-1183);
`p_in_clientid` is added only under loader-package logging. -/
def loaderParamsAdd : List (PyStr × PyStr × PyStr × PyStr) :=
  let base : List (PyStr × PyStr × PyStr × PyStr) :=
    [ ("p_out_return".data, "OUT".data, "NUMBER".data, []),
      ("p_out_message".data, "OUT".data, "VARCHAR2".data, []),
      ("p_out_rowcount".data, "OUT".data, "NUMBER".data, []),
      ("p_in_docommit".data, "IN".data, "NUMBER".data, tab ++ "DEFAULT 0".data) ]
  if loader_package_logging then
    base ++ [("p_in_clientid".data, "IN".data, "VARCHAR2".data, tab ++ "DEFAULT NULL".data)]
  else base

/-- Append the fixed parameters to `formatted_params_all` and
`parentLoadParams` (lines 1177-1183). -/
def appendLoaderParams (s : LoaderIUState) : LoaderIUState :=
  loaderParamsAdd.foldl
    (fun s p =>
      let spacing :=
        if table_min_spacing < p.1.length then spaces 2
        else spaces (table_min_spacing - p.1.length)
      { s with
          formatted_params_all := s.formatted_params_all ++ tab ++ tab ++ ", ".data ++
            p.1 ++ spacing ++ p.2.1 ++ tab ++ tab ++ p.2.2.1 ++ p.2.2.2 ++ "\n".data,
          parentLoadParams := s.parentLoadParams ++ tab ++ tab ++ tab ++ ", ".data ++
            p.1 ++ " => ".data ++ p.1 ++ "\n".data })
    s

/-- sql_script.py addInsertUpdateToLoaderPackage (lines 1020-1275): renders
the insert-or-update procedure for `tables` (child first, then its parent
chain) and appends header and body to the schema's accumulator.  When no
column of the chain is a primary key, `primaryKey` is still None when the
body template dereferences it (`primaryKey.field`), which raises
AttributeError -- modelled as `Except.error ()`; nothing is appended in
that case.  (The logging text fragments guarded by `loader_package_logging`
are the empty strings the source assigns under the default configuration,
false.) -/
def addInsertUpdateToLoaderPackage (loader : PackageAcc) (schema : PyStr)
    (tables : List Table) : Except Unit PackageAcc :=
  match tables with
  | [] => Except.error ()
  | t0 :: _ =>
    let tablename := t0.name
    let hasMultiTable := 1 < tables.length
    let collect := collectLoaderColumns tablename tables
    let proc_name := "P_LOAD_".data ++ tablename
    let s := collect.columns.foldl
      (insertUpdateStep tablename collect.tablenames hasMultiTable
        collect.parentLoadColumns) {}
    let s := appendLoaderParams s
    let load_parents :=
      match collect.tablenames with
      | [] => ([] : PyStr)
      | tn0 :: _ =>
        tab ++ tab ++ "P_LOAD_".data ++ tn0 ++ " (\n".data ++
        s.parentLoadParams ++
        tab ++ tab ++ ");\n".data ++
        tab ++ tab ++ "if p_out_return = 0 then raise parent_failed; end if;\n".data ++
        tab ++ tab ++ "l_cnt := l_cnt + p_out_rowcount;\n".data
    let log_error :=
      tab ++ tab ++ tab ++ "p_out_message := 'Error updating table ".data ++ schema ++
        ".".data ++ tablename ++ " - Error: ' || sqlerrm;\n".data ++
      tab ++ tab ++ tab ++ "l_stack := substr(dbms_utility.format_error_backtrace,1,4000);\n".data ++
      tab ++ tab ++ tab ++ "p_out_return := 0;\n".data
    let log_error_parent :=
      tab ++ tab ++ tab ++ "p_out_message := 'Error updating parent table to ".data ++
        schema ++ ".".data ++ tablename ++ " - Error: ' || p_out_message;\n".data ++
      tab ++ tab ++ tab ++ "p_out_return := 0;\n".data
    let to_save_header :=
      tab ++ "PROCEDURE ".data ++ proc_name ++ "\n".data ++
      tab ++ "(\n".data ++
      s.formatted_params_all ++
      tab ++ ");".data
    match s.primaryKey with
    | none => Except.error ()
    | some pk =>
      let pkLow := pyLower pk.field
      let log_cdbg : PyStr := []
      let log_appinfo : PyStr := []
      let log_debug : PyStr := []
      let log_closeappinfo : PyStr := []
      let to_save_body :=
        "-------------------------------------------------------------------------------\n".data ++
        "-- INSERT or UPDATE ".data ++ tablename ++ "\n".data ++
        "-------------------------------------------------------------------------------\n".data ++
        tab ++ "PROCEDURE ".data ++ proc_name ++ "\n".data ++
        tab ++ "(\n".data ++
        s.formatted_params_all ++
        tab ++ ") IS\n".data ++
        tab ++ tab ++ "l_stack VARCHAR2(4000);\n".data ++
        tab ++ tab ++ "l_cnt NUMBER;\n".data ++
        tab ++ tab ++ "parent_failed EXCEPTION;\n".data ++
        tab ++ log_cdbg ++
        tab ++ "BEGIN\n".data ++
        tab ++ log_appinfo ++
        tab ++ tab ++ "l_cnt := 0;\n".data ++
        load_parents ++
        tab ++ tab ++ "IF p_io_".data ++ pkLow ++ " IS NOT NULL THEN\n".data ++
        tab ++ tab ++ tab ++ "UPDATE ".data ++ tablename ++ " SET\n".data ++
        s.formatted_update_columns ++
        tab ++ tab ++ tab ++ "WHERE ".data ++ pk.field ++ " = p_io_".data ++ pkLow ++ "\n".data ++
        tab ++ tab ++ tab ++ "AND (\n".data ++
        s.formatted_update_where ++
        tab ++ tab ++ tab ++ ");\n".data ++
        tab ++ tab ++ tab ++ "l_cnt := l_cnt + sql%rowcount;\n".data ++
        tab ++ tab ++ tab ++ "p_out_message := 'UPDATE ' || l_cnt || ' rows; pk = ' || p_io_".data ++
          pkLow ++ ";\n".data ++
        tab ++ tab ++ "ELSE\n".data ++
        tab ++ tab ++ tab ++ "INSERT INTO ".data ++ schema ++ ".".data ++ tablename ++ " (\n".data ++
        s.formatted_insert_columns ++ "\n".data ++
        tab ++ tab ++ tab ++ ") VALUES (\n".data ++
        s.formatted_insert_values ++ "\n".data ++
        tab ++ tab ++ tab ++ ") RETURNING ".data ++ pk.field ++ " INTO p_io_".data ++ pkLow ++ ";\n".data ++
        tab ++ tab ++ tab ++ "l_cnt := l_cnt + sql%rowcount;\n".data ++
        tab ++ tab ++ tab ++ "p_out_message := 'INSERT ' || l_cnt || ' rows; pk = ' || p_io_".data ++
          pkLow ++ ";\n".data ++
        tab ++ tab ++ "END IF;\n".data ++
        tab ++ tab ++ "p_out_rowcount := l_cnt;\n".data ++
        tab ++ tab ++ "if p_in_docommit = 1 then COMMIT; end if;\n".data ++
        tab ++ tab ++ "p_out_return := 1;\n".data ++
        tab ++ log_debug ++
        tab ++ log_closeappinfo ++
        tab ++ "EXCEPTION\n".data ++
        tab ++ tab ++ "WHEN parent_failed THEN\n".data ++
        log_error_parent ++
        tab ++ tab ++ tab ++ "if p_in_docommit = 1 then ROLLBACK; end if;\n".data ++
        tab ++ tab ++ log_closeappinfo ++
        tab ++ tab ++ "WHEN OTHERS THEN\n".data ++
        log_error ++
        tab ++ tab ++ tab ++ "if p_in_docommit = 1 then ROLLBACK; end if;\n".data ++
        tab ++ tab ++ log_closeappinfo ++
        tab ++ "END ".data ++ proc_name ++ ";\n".data ++
        "-------------------------------------------------------------------------------\n".data
      Except.ok { loader with header := loader.header ++ [to_save_header],
                              body := loader.body ++ [to_save_body] }

/-! ## Concrete fixtures used by counterexamples and witnesses -/

/-- A plain NUMBER column named A. -/
def colA : Column :=
  Column.load { default_schema_row with field := "A".data, type := "NUMBER".data }

/-- A plain DATE column named B. -/
def colB : Column :=
  Column.load { default_schema_row with field := "B".data, type := "DATE".data }

/-- A column named A carrying compound-index cluster tag Y1. -/
def colY1 : Column :=
  Column.load { default_schema_row with
                field := "A".data, type := "NUMBER".data, index := "Y1".data }

/-- A second column in cluster Y1. -/
def colY1B : Column :=
  Column.load { default_schema_row with
                field := "B".data, type := "NUMBER".data, index := "Y1".data }

/-- A primary-key column named ID. -/
def colPK : Column :=
  Column.load { default_schema_row with
                field := "ID".data, type := "NUMBER".data, primary_key := "Y".data }

/-- A column whose name is the word CREATE (legal in the schema file). -/
def colCreate : Column :=
  Column.load { default_schema_row with field := "create".data, type := "NUMBER".data }

/-- A table whose only compound-index cluster has a single member. -/
def tShortCluster : Table :=
  (Table.init "S_OWNER".data "T".data "N".data "N".data [] 1 false []).addColumn colY1

/-- A table whose compound-index cluster has two members. -/
def tGoodCluster : Table :=
  ((Table.init "S_OWNER".data "T".data "N".data "N".data [] 1 false []).addColumn
    colY1).addColumn colY1B

/-- A table with the audit flag set and no columns. -/
def tAudit : Table :=
  Table.init "S_OWNER".data "T".data "Y".data "N".data [] 1 false []

/-- A table with the audit flag clear. -/
def tNoAudit : Table :=
  Table.init "S_OWNER".data "T".data "N".data "N".data [] 1 false []

/-- A table with the history flag set and one primary-key column. -/
def tHist : Table :=
  (Table.init "S_OWNER".data "T".data "N".data "Y".data [] 1 false []).addColumn colPK

/-- A table with one non-key column and no primary key. -/
def tNoPK : Table :=
  (Table.init "S_OWNER".data "T".data "N".data "N".data [] 1 false []).addColumn colA

/-- `tNoPK` after one genColumnList call (the cache is filled). -/
def tCached : Table := (Table.genColumnList tNoPK).1

/-- `tCached` with its column replaced by another without changing the
count: the cache is now stale. -/
def tStale : Table := { tCached with columns := [colB] }

/-! ## Lemmas: word splitting and formatting -/

theorem splitAux_append_space (b : PyStr) :
    ∀ (a acc : PyStr), splitAux (a ++ ' ' :: b) acc = splitAux a acc ++ splitAux b [] := by
  intro a
  induction a with
  | nil =>
    intro acc
    by_cases h : acc.isEmpty <;> simp [splitAux, isPySpace, h]
  | cons c cs ih =>
    intro acc
    by_cases h : isPySpace c
    · by_cases h2 : acc.isEmpty <;> simp [splitAux, h, h2, ih]
    · simp [splitAux, h, ih]

theorem pySplit_append_space (a b : PyStr) :
    pySplit (a ++ ' ' :: b) = pySplit a ++ pySplit b := by
  simp [pySplit, splitAux_append_space]

theorem pySplit_space_cons (b : PyStr) : pySplit (' ' :: b) = pySplit b := by
  have := pySplit_append_space [] b
  simpa using this

theorem pySplit_trailing_space (a : PyStr) : pySplit (a ++ [' ']) = pySplit a := by
  have := pySplit_append_space a []
  simpa [pySplit, splitAux] using this

theorem splitAux_solid (w : PyStr) (hw : ∀ c ∈ w, isPySpace c = false) :
    ∀ acc, splitAux w acc = if (acc ++ w).isEmpty then [] else [acc ++ w] := by
  induction w with
  | nil => intro acc; simp [splitAux]
  | cons c cs ih =>
    intro acc
    have hc : isPySpace c = false := hw c (by simp)
    have ih2 := ih (fun d hd => hw d (by simp [hd])) (acc ++ [c])
    simp only [splitAux, hc, Bool.false_eq_true, if_false]
    rw [ih2]
    simp

theorem pySplit_solid (w : PyStr) (hw : ∀ c ∈ w, isPySpace c = false)
    (hne : w ≠ []) : pySplit w = [w] := by
  have := splitAux_solid w hw []
  simpa [pySplit, hne] using this

theorem pySplit_word_space (w b : PyStr) (hw : ∀ c ∈ w, isPySpace c = false)
    (hne : w ≠ []) : pySplit (w ++ ' ' :: b) = w :: pySplit b := by
  rw [pySplit_append_space, pySplit_solid w hw hne]
  rfl

theorem splitAux_dedup (s : PyStr) :
    splitAux (dedupAux ' ' s) [] = splitAux s [] ∧
    ∀ (acc : PyStr) (p : Char), p ≠ ' ' →
      splitAux (dedupAux p s) acc = splitAux s acc := by
  induction s with
  | nil => exact ⟨rfl, fun _ _ _ => rfl⟩
  | cons c cs ih =>
    constructor
    · by_cases hc : c = ' '
      · subst hc
        simp [dedupAux, splitAux, isPySpace, ih.1]
      · have hd : dedupAux ' ' (c :: cs) = c :: dedupAux c cs := by
          simp [dedupAux, hc]
        rw [hd]
        by_cases hsp : isPySpace c
        · simp [splitAux, hsp, ih.2 [] c hc]
        · simp [splitAux, hsp, ih.2 [c] c hc]
    · intro acc p hp
      have hd : dedupAux p (c :: cs) = c :: dedupAux c cs := by
        simp [dedupAux, hp]
      rw [hd]
      by_cases hc : c = ' '
      · subst hc
        by_cases h2 : acc.isEmpty <;>
          simp [splitAux, isPySpace, h2, ih.1]
      · by_cases hsp : isPySpace c
        · by_cases h2 : acc.isEmpty <;>
            simp [splitAux, hsp, h2, ih.2 [] c hc]
        · simp [splitAux, hsp, ih.2 (acc ++ [c]) c hc]

theorem pySplit_formatForParsing (s : PyStr) :
    pySplit (formatForParsing s) = pySplit (s.map mapf) := by
  have h : (pyUpper s).map (fun c => if strippable_chars.contains c then ' ' else c)
      = s.map mapf := by
    rw [pyUpper, List.map_map]
    apply List.map_congr_left
    intro a _
    simp [mapf, Function.comp]
  simp only [formatForParsing, h]
  exact (splitAux_dedup (s.map mapf)).1

theorem map_mapf_of_solid (s : PyStr)
    (h : (s.map mapf).all (fun c => !isPySpace c) = true) :
    s.map mapf = pyUpper s := by
  rw [List.all_eq_true] at h
  apply List.map_congr_left
  intro c hc
  have hmc := h (mapf c) (List.mem_map_of_mem mapf hc)
  by_cases hstrip : c.toUpper ∈ strippable_chars
  · exfalso
    have hsp : mapf c = ' ' := by simp [mapf, hstrip]
    rw [hsp] at hmc
    simp [isPySpace] at hmc
  · simp [mapf, hstrip, pyUpper]

/-! ## Lemmas: the table model -/

theorem addColumn_columns (t : Table) (c : Column) :
    (t.addColumn c).columns = t.columns ++ [c] := by
  unfold Table.addColumn
  split <;> rfl

theorem addColumn_name (t : Table) (c : Column) : (t.addColumn c).name = t.name := by
  unfold Table.addColumn
  split <;> rfl

theorem addColumn_schema (t : Table) (c : Column) : (t.addColumn c).schema = t.schema := by
  unfold Table.addColumn
  split <;> rfl

theorem addColumn_ishistory (t : Table) (c : Column) :
    (t.addColumn c).ishistory = t.ishistory := by
  unfold Table.addColumn
  split <;> rfl

theorem addColumn_sourcetable (t : Table) (c : Column) :
    (t.addColumn c).sourcetable = t.sourcetable := by
  unfold Table.addColumn
  split <;> rfl

theorem addColumn_needsaudit (t : Table) (c : Column) :
    (t.addColumn c).needsaudit = t.needsaudit := by
  unfold Table.addColumn
  split <;> rfl

theorem addColumn_needshistory (t : Table) (c : Column) :
    (t.addColumn c).needshistory = t.needshistory := by
  unfold Table.addColumn
  split <;> rfl

theorem foldl_addColumn_columns (g : Column → Column) (cols : List Column) :
    ∀ t : Table,
      (cols.foldl (fun tb col => tb.addColumn (g col)) t).columns
        = t.columns ++ cols.map g := by
  induction cols with
  | nil => intro t; simp
  | cons c cs ih =>
    intro t
    simp [ih, addColumn_columns]

theorem foldl_addColumn_fields (g : Column → Column) (cols : List Column) :
    ∀ t : Table,
      (cols.foldl (fun tb col => tb.addColumn (g col)) t).name = t.name ∧
      (cols.foldl (fun tb col => tb.addColumn (g col)) t).schema = t.schema ∧
      (cols.foldl (fun tb col => tb.addColumn (g col)) t).ishistory = t.ishistory ∧
      (cols.foldl (fun tb col => tb.addColumn (g col)) t).sourcetable = t.sourcetable ∧
      (cols.foldl (fun tb col => tb.addColumn (g col)) t).needsaudit = t.needsaudit ∧
      (cols.foldl (fun tb col => tb.addColumn (g col)) t).needshistory = t.needshistory := by
  induction cols with
  | nil => intro t; simp
  | cons c cs ih =>
    intro t
    have h := ih (t.addColumn (g c))
    simp only [List.foldl_cons] at *
    rw [h.1, h.2.1, h.2.2.1, h.2.2.2.1, h.2.2.2.2.1, h.2.2.2.2.2]
    exact ⟨addColumn_name t (g c), addColumn_schema t (g c),
      addColumn_ishistory t (g c), addColumn_sourcetable t (g c),
      addColumn_needsaudit t (g c), addColumn_needshistory t (g c)⟩

/-! ## Claim theorems -/

/-- C4 (code_bug): the claim says `cleanCompoundIndex()` removes every
cluster with fewer than 2 members and is idempotent.  The code pops from
`self.compindex` while iterating `self.compindex.keys()`, so any call that
performs a removal raises RuntimeError ("dictionary changed size during
iteration") instead: on a table whose only cluster Y1 has one member the
call errors, while on a table whose clusters all have at least 2 members it
returns the map unchanged (and only then is it idempotent). -/
theorem c4_cleanCompoundIndex_raises_on_short_cluster :
    Table.cleanCompoundIndex tShortCluster = Except.error () ∧
    Table.cleanCompoundIndex tGoodCluster = Except.ok tGoodCluster := by
  constructor <;> rfl

/-- C10 (confirmed): `genColumnList` regenerates only when the cached
list's length differs from the column count; replacing `tNoPK`'s single
column A (cached in `tCached`) by column B without changing the count makes
the next call return the stale cached tuple for A, not the tuple of the
current column B. -/
theorem c10_genColumnList_stale_cache :
    (∀ t : Table, t.columnList.length = t.columns.length →
      Table.genColumnList t = (t, t.columnList)) ∧
    (Table.genColumnList tStale).2 = [tupleOfColumn colA] ∧
    tStale.columns = [colB] ∧
    (Table.genColumnList tStale).2 ≠ [tupleOfColumn colB] := by
  refine ⟨?_, by rfl, by rfl, by decide⟩
  intro t h
  unfold Table.genColumnList
  simp [h]

/-- Witness for the universal part of C10, at a table whose cache length
matches its column count. -/
theorem c10_genColumnList_stale_cache_witness :
    Table.genColumnList tCached = (tCached, tCached.columnList) :=
  c10_genColumnList_stale_cache.1 tCached (by decide)

/-- C6 (confirmed): `genHistoryTable` returns nothing exactly when
`needshistory` is unset; otherwise the result is a new table named
`H_<name>` in the same schema, flagged as a history table and recording the
source table's name (with audit and history requests disabled on it).
Determinism is inherent: the embedding is a pure function of the input
table, mirroring the source, which reads only its arguments and attributes. -/
theorem c6_genHistoryTable_name_and_none :
    ∀ (t : Table) (n : Option Nat),
      (t.genHistoryTable n = none ↔ t.needshistory = false) ∧
      (∀ h, t.genHistoryTable n = some h →
        h.name = "H_".data ++ t.name ∧ h.schema = t.schema ∧
        h.ishistory = true ∧ h.sourcetable = t.name ∧
        h.needsaudit = false ∧ h.needshistory = false) := by
  intro t n
  constructor
  · by_cases hh : t.needshistory <;> simp [Table.genHistoryTable, hh]
  · intro h hsome
    by_cases hh : t.needshistory
    · simp only [Table.genHistoryTable, hh, if_true, Option.some.injEq] at hsome
      subst hsome
      rw [Table.addColumnsForHistory]
      refine ⟨?_, ?_, ?_, ?_, ?_, ?_⟩
      · rw [(foldl_addColumn_fields _ _ _).1, (foldl_addColumn_fields _ _ _).1]
        rfl
      · rw [(foldl_addColumn_fields _ _ _).2.1, (foldl_addColumn_fields _ _ _).2.1]
        rfl
      · rw [(foldl_addColumn_fields _ _ _).2.2.1, (foldl_addColumn_fields _ _ _).2.2.1]
        rfl
      · rw [(foldl_addColumn_fields _ _ _).2.2.2.1,
            (foldl_addColumn_fields _ _ _).2.2.2.1]
        rfl
      · rw [(foldl_addColumn_fields _ _ _).2.2.2.2.1,
            (foldl_addColumn_fields _ _ _).2.2.2.2.1]
        rfl
      · rw [(foldl_addColumn_fields _ _ _).2.2.2.2.2,
            (foldl_addColumn_fields _ _ _).2.2.2.2.2]
        rfl
    · simp [Table.genHistoryTable, hh] at hsome

/-- Witness for C6 at a concrete history-flagged table. -/
theorem c6_genHistoryTable_name_and_none_witness :
    ((Table.genHistoryTable tHist none).getD tHist).name = "H_".data ++ tHist.name ∧
    (Table.genHistoryTable tNoPK none = none) := by
  constructor
  · exact ((c6_genHistoryTable_name_and_none tHist none).2
      ((Table.genHistoryTable tHist none).getD tHist) (by rfl)).1
  · exact (c6_genHistoryTable_name_and_none tNoPK none).1.mpr (by rfl)

/-- C5 (corrected), counterexample: the claim says `genAuditColumns()` is
idempotent when `needsAudit` is set, appending exactly two columns once.
On `tAudit` (audit flag set, no columns) one call appends two columns but a
second call appends two more, so the call is not idempotent. -/
theorem c5_counterexample_genAuditColumns_not_idempotent :
    (Table.genAuditColumns tAudit).columns.length = 2 ∧
    ((Table.genAuditColumns tAudit).genAuditColumns).columns.length = 4 ∧
    (Table.genAuditColumns tAudit).genAuditColumns ≠ Table.genAuditColumns tAudit := by
  refine ⟨by rfl, by rfl, by decide⟩

/-- C5 (corrected), amended claim: when `needsAudit` is set, every call of
`genAuditColumns()` appends exactly the two audit columns U_NAME and U_DATE
(so a repeated call appends two more and the method is not idempotent);
when `needsAudit` is clear it appends nothing (and only then is it
idempotent). -/
theorem c5_genAuditColumns_appends_two_each_call (t : Table) :
    (t.needsaudit = true →
      (Table.genAuditColumns t).columns =
        t.columns ++ [(spawnAuditColumns t.schema t.name).1,
                      (spawnAuditColumns t.schema t.name).2] ∧
      (spawnAuditColumns t.schema t.name).1.field = "U_NAME".data ∧
      (spawnAuditColumns t.schema t.name).2.field = "U_DATE".data) ∧
    (t.needsaudit = false → Table.genAuditColumns t = t) := by
  constructor
  · intro h
    refine ⟨?_, by rfl, by rfl⟩
    unfold Table.genAuditColumns
    rw [if_pos h, addColumn_columns, addColumn_columns, List.append_assoc]
    rfl
  · intro h
    unfold Table.genAuditColumns
    rw [if_neg (by simp [h])]

/-- Witness for C5's amended claim at concrete tables with the flag set and
clear. -/
theorem c5_genAuditColumns_appends_two_each_call_witness :
    (Table.genAuditColumns tAudit).columns =
      tAudit.columns ++ [(spawnAuditColumns tAudit.schema tAudit.name).1,
                         (spawnAuditColumns tAudit.schema tAudit.name).2] ∧
    Table.genAuditColumns tNoAudit = tNoAudit :=
  ⟨((c5_genAuditColumns_appends_two_each_call tAudit).1 (by rfl)).1,
   (c5_genAuditColumns_appends_two_each_call tNoAudit).2 (by rfl)⟩

/-- C3 (corrected), counterexample: the claim says every column on a
generated history table has its constraints cleared.  The generated table's
first column is the injected HIST_ID, which is a not-null primary key with
a sequence: on `tHist` the generated history table has a column with
`primarykey` (and `notnull`, `sequenced`) still set. -/
theorem c3_counterexample_history_columns_not_all_cleared :
    (Table.genHistoryTable tHist none).isSome = true ∧
    Option.any (fun h => h.columns.any (fun c => c.primarykey)) (Table.genHistoryTable tHist none) = true ∧
    Option.any (fun h => h.columns.any (fun c => c.sequenced)) (Table.genHistoryTable tHist none) = true := by
  refine ⟨by rfl, by rfl, by rfl⟩

/-- C3 (corrected), amended claim: every column *copied from the source
table* (every column after the four injected history columns HIST_ID,
CHANGE, CHANGE_DATE, CHANGE_USER) has its not-null, primary-key, default,
indexed, unique, sequenced and foreign-key attributes cleared, regardless
of the source column's settings; the four injected columns keep their own
constraints. -/
theorem mem_drop_append_of_length {α : Type} {c : α} {m : Nat} (l1 l2 : List α)
    (h : l1.length = m) (hc : c ∈ List.drop m (l1 ++ l2)) : c ∈ l2 := by
  subst h
  rwa [List.drop_left] at hc

theorem c3_history_copied_columns_cleared (t : Table) (n : Option Nat) (h : Table)
    (hsome : t.genHistoryTable n = some h) :
    ∀ c ∈ h.columns.drop 4,
      c.notnull = false ∧ c.primarykey = false ∧ c.default = none ∧
      c.indexed = false ∧ c.unique = false ∧ c.sequenced = false ∧
      c.fksourcetable = none ∧ c.fksourcefield = none := by
  by_cases hh : t.needshistory
  · simp only [Table.genHistoryTable, hh, if_true, Option.some.injEq] at hsome
    subst hsome
    rw [Table.addColumnsForHistory]
    intro c hc
    rw [foldl_addColumn_columns] at hc
    have hc2 : c ∈ List.map (fun column => historyResetColumn column.duplicateColumn)
        t.columns := by
      refine mem_drop_append_of_length _ _ ?_ hc
      rw [foldl_addColumn_columns]
      rfl
    obtain ⟨d, _, rfl⟩ := List.mem_map.mp hc2
    exact ⟨rfl, rfl, rfl, rfl, rfl, rfl, rfl, rfl⟩
  · simp [Table.genHistoryTable, hh] at hsome

/-- Witness for C3's amended claim at `tHist`. -/
theorem c3_history_copied_columns_cleared_witness :
    (((Table.genHistoryTable tHist none).getD tHist).columns.drop 4).all
      (fun c => !c.notnull && !c.primarykey && c.default.isNone && !c.indexed &&
        !c.unique && !c.sequenced && c.fksourcetable.isNone &&
        c.fksourcefield.isNone) = true := by
  have h := c3_history_copied_columns_cleared tHist none
    ((Table.genHistoryTable tHist none).getD tHist) (by rfl)
  rw [List.all_eq_true]
  intro c hc
  obtain ⟨h1, h2, h3, h4, h5, h6, h7, h8⟩ := h c hc
  simp [h1, h2, h3, h4, h5, h6, h7, h8]

/-- C1 (confirmed): for every call of writeIndexScript with `primaryKey`
set, whatever the `unique` argument, the chosen index statement is
`CREATE UNIQUE INDEX` (the script text is the prompt header followed by
that statement), when `unique` is false the corrected inconsistency is
logged, and a primary-key constraint script is generated whose text
contains `PRIMARY KEY` and `USING INDEX <schema>.<index>` with the same
index name `<tablename>_PK<suffix>` used by the index statement. -/
theorem c1_pk_index_forced_unique_with_constraint
    (schema tablename tablespace field : PyStr) (count : Nat) (unique : Bool) :
    (writeIndexScript schema tablename tablespace field count true unique).create
        = "CREATE UNIQUE INDEX".data ∧
    (writeIndexScript schema tablename tablespace field count true unique).indexName
        = tablename ++ "_".data ++ "PK".data ++ countSuffix count ∧
    (∃ rest,
      (writeIndexScript schema tablename tablespace field count true unique).indexText
        = "prompt --Adding ".data ++ schema ++ ".".data ++
          (writeIndexScript schema tablename tablespace field count true unique).indexName ++
          " index for ".data ++ field ++ "\n\n".data ++
          "CREATE UNIQUE INDEX".data ++ " ".data ++ schema ++ ".".data ++
          (writeIndexScript schema tablename tablespace field count true unique).indexName ++
          rest) ∧
    (writeIndexScript schema tablename tablespace field count true unique).pkConstraintText
        = some (writePKConstraintScriptText schema tablename
            (writeIndexScript schema tablename tablespace field count true unique).indexName
            field) ∧
    "PRIMARY KEY".data <:+: writePKConstraintScriptText schema tablename
        (writeIndexScript schema tablename tablespace field count true unique).indexName
        field ∧
    ("USING INDEX ".data ++ schema ++ ".".data ++
        (writeIndexScript schema tablename tablespace field count true unique).indexName) <:+:
      writePKConstraintScriptText schema tablename
        (writeIndexScript schema tablename tablespace field count true unique).indexName
        field ∧
    (unique = false →
      (writeIndexScript schema tablename tablespace field count true unique).warnings
        = ["Primary Key must be unique. Script will reflect this.".data]) := by
  refine ⟨by cases unique <;> rfl, by cases unique <;> rfl, ?_, by cases unique <;> rfl,
    ?_, ?_, ?_⟩
  · refine ⟨" ON ".data ++ schema ++ ".".data ++ tablename ++ "\n".data ++
      "(".data ++ field ++ ")\n".data ++
      "TABLESPACE ".data ++ tablespace ++ ";\n/\n\n".data, ?_⟩
    cases unique <;> simp [writeIndexScript, List.append_assoc]
  · exact ⟨"prompt --Adding ".data ++ schema ++ ".".data ++
      (writeIndexScript schema tablename tablespace field count true unique).indexName ++
      " constraint for ".data ++
      field ++ "\n\n".data ++ "ALTER TABLE ".data ++ schema ++ ".".data ++
      tablename ++ " ADD (\n".data ++ tab ++ "CONSTRAINT ".data ++
      (writeIndexScript schema tablename tablespace field count true unique).indexName ++
      "\n".data ++ tab,
      "\n".data ++ tab ++ "(".data ++ field ++ ")\n".data ++ tab ++
      "USING INDEX ".data ++ schema ++ ".".data ++
      (writeIndexScript schema tablename tablespace field count true unique).indexName ++
      "\n".data ++ ");\n/\n\n".data,
      by simp [writePKConstraintScriptText, List.append_assoc]⟩
  · exact ⟨"prompt --Adding ".data ++ schema ++ ".".data ++
      (writeIndexScript schema tablename tablespace field count true unique).indexName ++
      " constraint for ".data ++
      field ++ "\n\n".data ++ "ALTER TABLE ".data ++ schema ++ ".".data ++
      tablename ++ " ADD (\n".data ++ tab ++ "CONSTRAINT ".data ++
      (writeIndexScript schema tablename tablespace field count true unique).indexName ++
      "\n".data ++ tab ++
      "PRIMARY KEY".data ++ "\n".data ++ tab ++ "(".data ++ field ++ ")\n".data ++ tab,
      "\n".data ++ ");\n/\n\n".data,
      by simp [writePKConstraintScriptText, List.append_assoc]⟩
  · intro h
    subst h
    rfl

/-- Witness for C1 at concrete arguments with `unique = false`. -/
theorem c1_pk_index_forced_unique_with_constraint_witness :
    (writeIndexScript "S".data "T".data "TS".data "ID".data 1 true false).create
        = "CREATE UNIQUE INDEX".data ∧
    (writeIndexScript "S".data "T".data "TS".data "ID".data 1 true false).warnings
        = ["Primary Key must be unique. Script will reflect this.".data] :=
  ⟨(c1_pk_index_forced_unique_with_constraint "S".data "T".data "TS".data
      "ID".data 1 false).1,
   (c1_pk_index_forced_unique_with_constraint "S".data "T".data "TS".data
      "ID".data 1 false).2.2.2.2.2.2 rfl⟩

/-- C7 (confirmed): the per-table counters append no numeric suffix at
count 1 and append the printed count otherwise, in index names
(`<tablename>_<keytype><suffix>`, as in the generated index script) and in
foreign-key constraint names (`<boundtable>_<boundfield>_FK<suffix>`, which
appears in the generated FK constraint script). -/
theorem c7_counter_suffix_convention
    (schema tablename tablespace field sourcetable sourcefield boundtable
      boundfield : PyStr) (pk uq : Bool) (count : Nat) :
    (writeIndexScript schema tablename tablespace field 1 pk uq).indexName
        = tablename ++ "_".data ++
          (writeIndexScript schema tablename tablespace field 1 pk uq).keyType ∧
    (1 < count →
      (writeIndexScript schema tablename tablespace field count pk uq).indexName
        = tablename ++ "_".data ++
          (writeIndexScript schema tablename tablespace field count pk uq).keyType ++
          (toString count).data) ∧
    fkConstraintName boundtable boundfield 1
        = boundtable ++ "_".data ++ boundfield ++ "_FK".data ∧
    (1 < count →
      fkConstraintName boundtable boundfield count
        = boundtable ++ "_".data ++ boundfield ++ "_FK".data ++ (toString count).data) ∧
    (tab ++ "CONSTRAINT ".data ++ fkConstraintName boundtable boundfield count ++
        "\n".data) <:+:
      writeFKConstraintScriptText schema sourcetable sourcefield boundtable
        boundfield count := by
  have hsuf : ∀ m : Nat, 1 < m → countSuffix m = (toString m).data := by
    intro m hm
    have : (m == 1) = false := by
      simp [Nat.ne_of_gt hm]
    simp [countSuffix, this]
  refine ⟨?_, ?_, ?_, ?_, ?_⟩
  · simp [writeIndexScript, countSuffix]
  · intro hm
    simp [writeIndexScript, hsuf count hm]
  · simp [fkConstraintName, countSuffix]
  · intro hm
    simp [fkConstraintName, hsuf count hm]
  · exact ⟨"prompt --Adding ".data ++ schema ++ ".".data ++
      fkConstraintName boundtable boundfield count ++ " constraint for ".data ++
      sourcefield ++ "\n\n".data ++ "ALTER TABLE ".data ++ schema ++ ".".data ++
      boundtable ++ " ADD (\n".data,
      tab ++ "FOREIGN KEY (".data ++ boundfield ++ ")\n".data ++ tab ++
      "REFERENCES ".data ++ schema ++ ".".data ++ sourcetable ++ " (".data ++
      sourcefield ++ ")\n".data ++ ");\n/\n\n".data,
      by simp [writeFKConstraintScriptText, List.append_assoc]⟩

/-- Witness for C7 at count 2 (suffixed) and count 1 (unsuffixed). -/
theorem c7_counter_suffix_convention_witness :
    (writeIndexScript "S".data "T".data "TS".data "A".data 1 false false).indexName
        = "T".data ++ "_".data ++ "NI".data ∧
    (writeIndexScript "S".data "T".data "TS".data "A".data 2 false false).indexName
        = "T".data ++ "_".data ++ "NI".data ++ "2".data ∧
    fkConstraintName "T".data "A".data 2
        = "T".data ++ "_".data ++ "A".data ++ "_FK".data ++ "2".data := by
  refine ⟨?_, ?_, ?_⟩
  · exact (c7_counter_suffix_convention "S".data "T".data "TS".data "A".data
      "X".data "Y".data "T".data "A".data false false 2).1
  · exact (c7_counter_suffix_convention "S".data "T".data "TS".data "A".data
      "X".data "Y".data "T".data "A".data false false 2).2.1 (by decide)
  · exact (c7_counter_suffix_convention "S".data "T".data "TS".data "A".data
      "X".data "Y".data "T".data "A".data false false 2).2.2.2.1 (by decide)

/-! ## Lemmas: the loader insert-or-update generator -/

theorem loaderEmitStep_primaryKey (name ctype spacing newline insert_value
    defaultNull : PyStr) (io : PyStr × PyStr) (excludeIU excludeParams : Bool)
    (plc : List Column) (col : Column) (s : LoaderIUState) :
    (loaderEmitStep name ctype spacing newline insert_value defaultNull io
      excludeIU excludeParams plc col s).primaryKey = s.primaryKey := by
  cases plc <;> simp only [loaderEmitStep] <;>
    repeat' first
      | split
      | rfl

theorem loaderIoBranch_not_pk (tns : List PyStr) (hm : Bool) (col : Column)
    (name : PyStr) (s : LoaderIUState) (h : col.primarykey = false) :
    (loaderIoBranch tns hm col name s).2.2.2 = s := by
  unfold loaderIoBranch
  simp [h]

theorem insertUpdateStep_primaryKey (tn : PyStr) (tns : List PyStr) (hm : Bool)
    (plc : List Column) (s : LoaderIUState) (p : Column × PyStr)
    (h : p.1.primarykey = false) :
    (insertUpdateStep tn tns hm plc s p).primaryKey = s.primaryKey := by
  simp only [insertUpdateStep, loaderEmitStep_primaryKey,
    loaderIoBranch_not_pk _ _ _ _ _ h]
  repeat' first
    | split
    | rfl

theorem foldl_insertUpdateStep_primaryKey (tn : PyStr) (tns : List PyStr)
    (hm : Bool) (plc : List Column) (pairs : List (Column × PyStr))
    (hp : ∀ p ∈ pairs, p.1.primarykey = false) :
    ∀ s : LoaderIUState,
      (pairs.foldl (insertUpdateStep tn tns hm plc) s).primaryKey = s.primaryKey := by
  induction pairs with
  | nil => intro s; rfl
  | cons q qs ih =>
    intro s
    rw [List.foldl_cons, ih (fun p hp2 => hp p (by simp [hp2])),
      insertUpdateStep_primaryKey tn tns hm plc s q (hp q (by simp))]

theorem appendLoaderParams_primaryKey (s : LoaderIUState) :
    (appendLoaderParams s).primaryKey = s.primaryKey := by
  simp only [appendLoaderParams, loaderParamsAdd, loader_package_logging,
    Bool.false_eq_true, if_false, List.foldl_cons, List.foldl_nil]

theorem collectLoaderColumns_single (t : Table) :
    (collectLoaderColumns t.name [t]).columns
      = (t.columns.filter (fun col => !col.virtual || col.primarykey)).map
          (fun col => (col, t.name)) := by
  have main : ∀ (cols : List Column) (st : LoaderCollect),
      (cols.foldl
        (fun st col =>
          if (!col.virtual || col.primarykey : Bool) then
            { st with columns := st.columns ++ [(col, t.name)] }
          else st) st).columns
      = st.columns ++ (cols.filter (fun col => !col.virtual || col.primarykey)).map
          (fun col => (col, t.name)) := by
    intro cols
    induction cols with
    | nil => intro st; simp
    | cons c cs ih =>
      intro st
      rw [List.foldl_cons, ih]
      by_cases hc : (!c.virtual || c.primarykey) = true
      · simp [List.filter_cons, hc, List.append_assoc]
      · simp [List.filter_cons, hc]
  show (collectLoaderTable t.name {} t).columns = _
  unfold collectLoaderTable
  simp only [beq_self_eq_true, Bool.not_true, Bool.false_eq_true, if_false]
  exact main t.columns {}

/-- C9 (corrected), amended claim: when a single loader table has no
primary-key column, addInsertUpdateToLoaderPackage leaves its `primaryKey`
variable as None and raising AttributeError while rendering the body
(`primaryKey.field`): nothing is logged and nothing is appended to the
package accumulator; the artifact is lost to the uncaught exception rather
than skipped deliberately. -/
theorem c9_loader_no_pk_raises (loader : PackageAcc) (schema : PyStr) (t : Table)
    (hnopk : ∀ c ∈ t.columns, c.primarykey = false) :
    addInsertUpdateToLoaderPackage loader schema [t] = Except.error () := by
  unfold addInsertUpdateToLoaderPackage
  have hfold :
      ((collectLoaderColumns t.name [t]).columns.foldl
        (insertUpdateStep t.name (collectLoaderColumns t.name [t]).tablenames
          (1 < ([t] : List Table).length)
          (collectLoaderColumns t.name [t]).parentLoadColumns) {}).primaryKey
      = none := by
    rw [foldl_insertUpdateStep_primaryKey]
    intro p hp
    rw [collectLoaderColumns_single] at hp
    obtain ⟨c, hc, rfl⟩ := List.mem_map.mp hp
    exact hnopk c (List.mem_of_mem_filter hc)
  have hpk : (appendLoaderParams
      ((collectLoaderColumns t.name [t]).columns.foldl
        (insertUpdateStep t.name (collectLoaderColumns t.name [t]).tablenames
          (1 < ([t] : List Table).length)
          (collectLoaderColumns t.name [t]).parentLoadColumns) {})).primaryKey = none := by
    rw [appendLoaderParams_primaryKey]
    exact hfold
  simp only [hpk]

/-- C9 (corrected), counterexample: on a concrete table with one non-key
column the claim's logged-and-skipped behaviour does not happen: the call
raises (modelled as an error result), and with a primary key present the
same call succeeds and appends. -/
theorem c9_counterexample_loader_no_pk :
    addInsertUpdateToLoaderPackage {} "S_OWNER".data [tNoPK] = Except.error () ∧
    (addInsertUpdateToLoaderPackage {} "S_OWNER".data [tHist]).isOk = true := by
  constructor <;> rfl

/-- Witness for C9's amended claim at a concrete no-primary-key table. -/
theorem c9_loader_no_pk_raises_witness :
    addInsertUpdateToLoaderPackage {} "S2_OWNER".data [tNoPK] = Except.error () :=
  c9_loader_no_pk_raises {} "S2_OWNER".data tNoPK (by decide)

/-! ## Lemmas: the ALTER scanner -/

theorem eraseKey_lookup_self (m : List (Nat × AlterEntry)) (i : Nat) :
    List.lookup i (eraseKey m i) = none := by
  induction m with
  | nil => rfl
  | cons e es ih =>
    by_cases he : e.1 = i
    · simpa [eraseKey, he] using ih
    · simp only [eraseKey, List.filter_cons]
      rw [if_pos (by simp [he])]
      rw [List.lookup_cons]
      simp only [show (i == e.1) = false by simp [Ne.symm he]]
      simpa [eraseKey] using ih

theorem eraseKey_lookup_ne (m : List (Nat × AlterEntry)) (i j : Nat) (h : i ≠ j) :
    List.lookup i (eraseKey m j) = List.lookup i m := by
  induction m with
  | nil => rfl
  | cons e es ih =>
    by_cases he : e.1 = j
    · rw [show List.lookup i (e :: es) = List.lookup i es by
        rw [List.lookup_cons]; simp [show (i == e.1) = false by simp [he, h]]]
      simpa [eraseKey, he] using ih
    · simp only [eraseKey, List.filter_cons]
      rw [if_pos (by simp [he])]
      rw [List.lookup_cons, List.lookup_cons]
      by_cases hi : (i == e.1) = true
      · simp [hi]
      · simp only [Bool.not_eq_true] at hi
        simp only [hi]
        simpa [eraseKey] using ih

theorem setConstraintName_lookup_ne (m : List (Nat × AlterEntry)) (i j : Nat)
    (w : PyStr) (h : i ≠ j) :
    List.lookup i (setConstraintName m j w) = List.lookup i m := by
  induction m with
  | nil => rfl
  | cons e es ih =>
    by_cases he : e.1 = j
    · simp only [setConstraintName, List.map_cons]
      rw [if_pos (by simp [he])]
      rw [List.lookup_cons, List.lookup_cons]
      simp only [show (i == e.1) = false by simp [he, h]]
      simpa [setConstraintName] using ih
    · simp only [setConstraintName, List.map_cons]
      rw [if_neg (by simp [he])]
      rw [List.lookup_cons, List.lookup_cons]
      by_cases hi : (i == e.1) = true
      · simp [hi]
      · simp only [Bool.not_eq_true] at hi
        simp only [hi]
        simpa [setConstraintName] using ih

theorem lookup_append_single_ne (m : List (Nat × AlterEntry)) (i j : Nat)
    (e : AlterEntry) (h : i ≠ j) :
    List.lookup i (m ++ [(j, e)]) = List.lookup i m := by
  induction m with
  | nil =>
    simp only [List.nil_append, List.lookup_cons, List.lookup_nil]
    simp [show (i == j) = false by simp [h]]
  | cons q qs ih =>
    rw [List.cons_append, List.lookup_cons, List.lookup_cons]
    by_cases hi : (i == q.1) = true
    · simp [hi]
    · simp only [Bool.not_eq_true] at hi
      simp only [hi]
      exact ih

theorem alterStep_preserves_lt (st : AlterState) (w : PyStr) (i : Nat)
    (hi : i < st.index) (h : List.lookup i st.alterStatements = none) :
    List.lookup i (alterStep st w).alterStatements = none ∧
      i < (alterStep st w).index := by
  have hne : i ≠ st.index := Nat.ne_of_lt hi
  have hne1 : i ≠ st.index + 1 := by omega
  unfold alterStep
  repeat' first
    | split
    | dsimp only
  all_goals refine ⟨?_, by omega⟩
  all_goals try simp only [eraseKey_lookup_ne _ _ _ hne, eraseKey_lookup_ne _ _ _ hne1,
    setConstraintName_lookup_ne _ _ _ _ hne, lookup_append_single_ne _ _ _ _ hne]
  all_goals exact h

theorem foldl_alterStep_preserves_none (ws : List PyStr) :
    ∀ (st : AlterState) (i : Nat), i < st.index →
      List.lookup i st.alterStatements = none →
      List.lookup i ((ws.foldl alterStep st).alterStatements) = none := by
  induction ws with
  | nil => intro st i _ h; exact h
  | cons w ws ih =>
    intro st i hi h
    have step := alterStep_preserves_lt st w i hi h
    exact ih (alterStep st w) i step.2 step.1

theorem alterStep_closes_or_stays (st : AlterState) (w : PyStr)
    (hpop : (!(st.isAdd && st.constraint)) = true) :
    (alterStep st w).index = st.index ∨
      List.lookup st.index (alterStep st w).alterStatements = none := by
  unfold alterStep
  repeat' first
    | split
    | dsimp only
  all_goals first
    | exact Or.inl rfl
    | exact Or.inr (eraseKey_lookup_self _ _)
    | exact Or.inr (by
        rw [eraseKey_lookup_ne _ _ _ (Nat.ne_of_lt (Nat.lt_succ_self _))]
        exact eraseKey_lookup_self _ _)
    | exact absurd hpop (by assumption)
    | exact absurd (by decide) (by assumption)
    | (exfalso
       rename (w == "ADD".data) = true => hw
       rename (endsWithAny [';', '/'] w && st.isAlter) = true => hterm
       rw [eq_of_beq hw] at hterm
       rw [show endsWithAny [';', '/'] "ADD".data = false from rfl] at hterm
       simp at hterm)
    | (exfalso
       rename (w == "CONSTRAINT".data) = true => hw
       rename (endsWithAny [';', '/'] w && st.isAlter) = true => hterm
       rw [eq_of_beq hw] at hterm
       rw [show endsWithAny [';', '/'] "CONSTRAINT".data = false from rfl] at hterm
       simp at hterm)

theorem alterStep_closure_discards (st : AlterState) (w : PyStr)
    (hflags : ¬(st.isAdd = true ∧ st.constraint = true))
    (hclose : (alterStep st w).index = st.index + 1) :
    List.lookup st.index (alterStep st w).alterStatements = none := by
  have hpop : (!(st.isAdd && st.constraint)) = true := by
    rcases Bool.eq_false_or_eq_true st.isAdd with ha | ha
    · rcases Bool.eq_false_or_eq_true st.constraint with hb | hb
      · exact absurd ⟨ha, hb⟩ hflags
      · simp [hb]
    · simp [ha]
  rcases alterStep_closes_or_stays st w hpop with hstay | hnone
  · omega
  · exact hnone

theorem lookup_none_forall (m : List (Nat × AlterEntry)) (i : Nat)
    (h : List.lookup i m = none) : ∀ e ∈ m, e.1 ≠ i := by
  induction m with
  | nil => intro e he; cases he
  | cons q qs ih =>
    intro e he
    rw [List.lookup_cons] at h
    by_cases hq : (i == q.1) = true
    · rw [hq] at h
      cases h
    · rw [Bool.not_eq_true] at hq
      rw [hq] at h
      rw [List.mem_cons] at he
      rcases he with he | he
      · subst he
        rw [beq_eq_false_iff_ne] at hq
        exact fun hh => hq (hh ▸ rfl)
      · exact ih h e he

/-- C8: a capture of the ALTER scanner that closes on word `w` (the scanner
moves on to the next statement index) without both the ADD flag and the
CONSTRAINT flag having been seen is discarded: the final statement map of the
whole input holds no entry for that capture's index, so `parseAltersOfWords`
(which emits one DROP CONSTRAINT line per retained entry, raising only for a
retained entry whose constraint name was never written) emits no line and
raises no error for it, whatever words follow. -/
theorem c8_invalid_alter_capture_discarded (pre : List PyStr) (w : PyStr)
    (post : List PyStr)
    (hflags : ¬((pre.foldl alterStep initAlterState).isAdd = true ∧
        (pre.foldl alterStep initAlterState).constraint = true))
    (hclose : (alterStep (pre.foldl alterStep initAlterState) w).index =
        (pre.foldl alterStep initAlterState).index + 1) :
    parseAltersOfWords (pre ++ w :: post) =
      alterOutput (((pre ++ w :: post).foldl alterStep initAlterState).alterStatements) ∧
    ∀ e ∈ ((pre ++ w :: post).foldl alterStep initAlterState).alterStatements,
      e.1 ≠ (pre.foldl alterStep initAlterState).index := by
  refine ⟨rfl, ?_⟩
  have h1 := alterStep_closure_discards (pre.foldl alterStep initAlterState) w hflags hclose
  have h2 : (pre.foldl alterStep initAlterState).index <
      (alterStep (pre.foldl alterStep initAlterState) w).index := by omega
  have h3 : List.lookup (pre.foldl alterStep initAlterState).index
      (((pre ++ w :: post).foldl alterStep initAlterState).alterStatements) = none := by
    rw [List.foldl_append, List.foldl_cons]
    exact foldl_alterStep_preserves_none post _ _ h2 h1
  exact lookup_none_forall _ _ h3

/-- C8 witness: the text `ALTER T1 X; ALTER` — the capture for table T1
closes at the terminator `X;` with neither ADD nor CONSTRAINT seen, and the
final statement map of the whole input has no entry for it. -/
theorem c8_invalid_alter_capture_discarded_witness :
    (¬(((["ALTER".data, "T1".data]).foldl alterStep initAlterState).isAdd = true ∧
        ((["ALTER".data, "T1".data]).foldl alterStep initAlterState).constraint = true)) ∧
    ((alterStep ((["ALTER".data, "T1".data]).foldl alterStep initAlterState) "X;".data).index =
      ((["ALTER".data, "T1".data]).foldl alterStep initAlterState).index + 1) ∧
    (parseAltersOfWords (["ALTER".data, "T1".data] ++ "X;".data :: ["ALTER".data]) =
      alterOutput (((["ALTER".data, "T1".data] ++ "X;".data :: ["ALTER".data]).foldl
        alterStep initAlterState).alterStatements) ∧
    ∀ e ∈ ((["ALTER".data, "T1".data] ++ "X;".data :: ["ALTER".data]).foldl
        alterStep initAlterState).alterStatements,
      e.1 ≠ ((["ALTER".data, "T1".data]).foldl alterStep initAlterState).index) :=
  ⟨by decide, by decide,
    c8_invalid_alter_capture_discarded (["ALTER".data, "T1".data]) ("X;".data)
      (["ALTER".data]) (by decide) (by decide)⟩

theorem getLast_append_of_getLast (a b : PyStr) (c : Char)
    (h : b.getLast? = some c) : (a ++ b).getLast? = some c := by
  have hb : b ≠ [] := by rintro rfl; simp at h
  rw [List.getLast?_append_of_ne_nil a hb]
  exact h

theorem lobsFold_last (l : List PyStr) : ∀ acc : PyStr,
    l.foldl (fun acc lob => acc ++ lob ++ "\n".data) acc = acc ∨
    (l.foldl (fun acc lob => acc ++ lob ++ "\n".data) acc).getLast? = some '\n' := by
  induction l with
  | nil => intro acc; exact Or.inl rfl
  | cons x xs ih =>
    intro acc
    rw [List.foldl_cons]
    rcases ih (acc ++ x ++ "\n".data) with h | h
    · right
      rw [h]
      exact List.getLast?_concat _
    · right
      exact h

theorem tableScriptBody_last (columns : List ColTup) (tablespace : PyStr) :
    (tableScriptBody columns tablespace).getLast? = some '\n' := by
  unfold tableScriptBody writeTableScriptLobs
  rcases lobsFold_last
      (columns.filterMap (fun col => col.2.2.2.map (lobAsSecureFile col.1 tablespace)))
      [] with h | h
  · rw [h, List.append_nil]
    rw [List.getLast?_append_of_ne_nil _ (show "\n)\n".data ≠ [] by decide)]
    rfl
  · exact getLast_append_of_getLast _ _ _ h

theorem bodyMap_last (columns : List ColTup) (tablespace : PyStr) :
    ((tableScriptBody columns tablespace).map mapf).getLast? = some ' ' := by
  rw [List.getLast?_map, tableScriptBody_last]
  rfl

theorem pySplit_append_last_space (b x : PyStr) (h : b.getLast? = some ' ') :
    pySplit (b ++ x) = pySplit b ++ pySplit x := by
  have hb : b ≠ [] := by rintro rfl; simp at h
  have hg : b.getLast hb = ' ' := by
    have h2 := List.getLast?_eq_getLast b hb
    rw [h] at h2
    exact (Option.some.inj h2).symm
  have hdec : b.dropLast ++ [' '] = b := by
    rw [← hg]
    exact List.dropLast_append_getLast hb
  have h1 : pySplit (b ++ x) = pySplit b.dropLast ++ pySplit x := by
    conv_lhs => rw [← hdec]
    rw [List.append_assoc]
    exact pySplit_append_space _ _
  have h2 : pySplit b = pySplit b.dropLast := by
    conv_lhs => rw [← hdec]
    exact pySplit_trailing_space _
  rw [h1, h2]

theorem createStep_skip (st : CreateState) (w : PyStr)
    (hw : (w == "CREATE".data) = false) (hst : st.isCreate = false) :
    createStep st w = st := by
  unfold createStep
  rw [if_neg (by simp [hw]), if_neg (by simp [hst])]

theorem createStep_create (st : CreateState) :
    createStep st "CREATE".data = { st with isCreate := true } := by
  unfold createStep
  rw [if_pos (by simp)]

theorem createStep_capture (st : CreateState) (w : PyStr)
    (hw : (w == "CREATE".data) = false) (hst : st.isCreate = true)
    (h1 : script_starts.contains w = false) (h2 : script_types.contains w = false) :
    createStep st w =
      { st with createStatements := st.createStatements ++ [(st.createType, w)],
                isCreate := false } := by
  unfold createStep
  rw [if_neg (by simp [hw]), if_pos hst]
  simp only [h1, h2, Bool.not_false, Bool.and_self, eq_self_iff_true, if_true]
  split <;> rfl

theorem foldl_createStep_skip (ws : List PyStr) : ∀ st : CreateState,
    st.isCreate = false → (∀ w ∈ ws, (w == "CREATE".data) = false) →
    ws.foldl createStep st = st := by
  induction ws with
  | nil => intro st _ _; rfl
  | cons w ws ih =>
    intro st hst hws
    rw [List.foldl_cons, createStep_skip st w (hws w (by simp)) hst]
    exact ih st hst (fun v hv => hws v (by simp [hv]))

theorem contains_eq_false_of_char (l : List PyStr) (s : PyStr) (c : Char)
    (hc : c ∈ s) (hl : (l.all (fun w => !w.contains c)) = true) :
    l.contains s = false := by
  cases hb : l.contains s
  · rfl
  · exfalso
    have hmem : s ∈ l := by simpa using hb
    have hno := (List.all_eq_true.mp hl) s hmem
    rw [Bool.not_eq_true'] at hno
    have : c ∉ s := by simpa using hno
    exact this hc

/-- C2 (amended): the round trip holds up to upper-casing. If the schema,
table and tablespace names contain no whitespace and no strippable character
(so they survive `formatForParsing` as single words), and the column block of
the script contributes no word CREATE, then feeding the generated
CREATE TABLE script to `parseSqlCreates` yields exactly one drop statement,
`DROP TABLE <SCHEMA>.<TABLE>;`, with both names upper-cased. -/
theorem c2_roundtrip_drop_uppercased (packages : List PyStr)
    (schema tablename : PyStr) (columns : List ColTup) (tablespace : PyStr)
    (hschema : (schema.map mapf).all (fun c => !isPySpace c) = true)
    (htable : (tablename.map mapf).all (fun c => !isPySpace c) = true)
    (hts : (tablespace.map mapf).all (fun c => !isPySpace c) = true)
    (hbody : "CREATE".data ∉ pySplit ((tableScriptBody columns tablespace).map mapf)) :
    parseSqlCreates packages (writeTableScriptText schema tablename columns tablespace) =
      Except.ok (packages,
        ["DROP TABLE ".data ++ pyUpper schema ++ ".".data ++ pyUpper tablename ++
          ";".data]) := by
  have hSu : schema.map mapf = pyUpper schema := map_mapf_of_solid _ hschema
  have hTu : tablename.map mapf = pyUpper tablename := map_mapf_of_solid _ htable
  have hTSu : tablespace.map mapf = pyUpper tablespace := map_mapf_of_solid _ hts
  have hSchemaSolid : ∀ c ∈ pyUpper schema, isPySpace c = false := by
    intro c hc
    rw [← hSu] at hc
    have := (List.all_eq_true.mp hschema) c hc
    simpa using this
  have hTableSolid : ∀ c ∈ pyUpper tablename, isPySpace c = false := by
    intro c hc
    rw [← hTu] at hc
    have := (List.all_eq_true.mp htable) c hc
    simpa using this
  have hTsSolid : ∀ c ∈ pyUpper tablespace, isPySpace c = false := by
    intro c hc
    rw [← hTSu] at hc
    have := (List.all_eq_true.mp hts) c hc
    simpa using this
  have hSTsolid : ∀ c ∈ pyUpper schema ++ '.' :: pyUpper tablename, isPySpace c = false := by
    intro c hc
    rw [List.mem_append, List.mem_cons] at hc
    rcases hc with hc | hc | hc
    · exact hSchemaSolid c hc
    · subst hc; decide
    · exact hTableSolid c hc
  have hTSsolid : ∀ c ∈ pyUpper tablespace ++ ";".data, isPySpace c = false := by
    intro c hc
    rw [List.mem_append] at hc
    rcases hc with hc | hc
    · exact hTsSolid c hc
    · have : c = ';' := by simpa using hc
      subst this; decide
  have hST_ne : ((pyUpper schema ++ '.' :: pyUpper tablename) == "CREATE".data) = false := by
    rw [beq_eq_false_iff_ne]
    intro he
    have hdot : '.' ∈ pyUpper schema ++ '.' :: pyUpper tablename := by simp
    rw [he] at hdot
    exact absurd hdot (by decide)
  have hST_starts : script_starts.contains (pyUpper schema ++ '.' :: pyUpper tablename) = false :=
    contains_eq_false_of_char _ _ '.' (by simp) (by decide)
  have hST_types : script_types.contains (pyUpper schema ++ '.' :: pyUpper tablename) = false :=
    contains_eq_false_of_char _ _ '.' (by simp) (by decide)
  have m1 : ("prompt --Adding ".data).map mapf =
      "PROMPT".data ++ ' ' :: ("--ADDING".data ++ [' ']) := rfl
  have m2 : (".".data).map mapf = ['.'] := rfl
  have m3 : (" table\n\n".data).map mapf = ' ' :: ("TABLE".data ++ [' ', ' ']) := rfl
  have m4 : ("CREATE TABLE ".data).map mapf =
      "CREATE".data ++ ' ' :: ("TABLE".data ++ [' ']) := rfl
  have m5 : ("\n".data).map mapf = [' '] := rfl
  have m6 : ("(\n".data).map mapf = [' ', ' '] := rfl
  have m7 : ("TABLESPACE ".data).map mapf = "TABLESPACE".data ++ [' '] := rfl
  have m8 : ((";\n/\n".data).map mapf) = ';' :: [' ', '/', ' '] := rfl
  have hM : (writeTableScriptText schema tablename columns tablespace).map mapf =
      "PROMPT".data ++ ' ' :: ("--ADDING".data ++ ' ' ::
        ((pyUpper schema ++ '.' :: pyUpper tablename) ++ ' ' ::
          ("TABLE".data ++ ' ' :: ' ' ::
            ("CREATE".data ++ ' ' :: ("TABLE".data ++ ' ' ::
              ((pyUpper schema ++ '.' :: pyUpper tablename) ++ ' ' :: ' ' :: ' ' ::
                (((tableScriptBody columns tablespace).map mapf) ++
                  ("TABLESPACE".data ++ ' ' ::
                    ((pyUpper tablespace ++ ";".data) ++ ' ' :: '/' :: [' ']))))))))) := by
    unfold writeTableScriptText
    repeat rw [List.map_append]
    rw [m1, hSu, m2, hTu, m3, m4, m5, m6, m7, hTSu, m8]
    simp only [List.append_assoc, List.cons_append, List.nil_append,
      List.singleton_append]
  have e1 : createStep ⟨false, [], []⟩ "PROMPT".data = ⟨false, [], []⟩ :=
    createStep_skip _ _ (by decide) rfl
  have e2 : createStep ⟨false, [], []⟩ "--ADDING".data = ⟨false, [], []⟩ :=
    createStep_skip _ _ (by decide) rfl
  have e3 : createStep ⟨false, [], []⟩ (pyUpper schema ++ '.' :: pyUpper tablename) =
      ⟨false, [], []⟩ :=
    createStep_skip _ _ hST_ne rfl
  have e4 : createStep ⟨false, [], []⟩ "TABLE".data = ⟨false, [], []⟩ :=
    createStep_skip _ _ (by decide) rfl
  have e5 : createStep ⟨false, [], []⟩ "CREATE".data = ⟨true, [], []⟩ :=
    createStep_create _
  have e6 : createStep ⟨true, [], []⟩ "TABLE".data = ⟨true, "TABLE".data, []⟩ := rfl
  have e7 : createStep ⟨true, "TABLE".data, []⟩ (pyUpper schema ++ '.' :: pyUpper tablename) =
      ⟨false, "TABLE".data, [("TABLE".data, pyUpper schema ++ '.' :: pyUpper tablename)]⟩ :=
    createStep_capture _ _ hST_ne rfl hST_starts hST_types
  have hall : ∀ w ∈ pySplit ((tableScriptBody columns tablespace).map mapf) ++
      ["TABLESPACE".data, pyUpper tablespace ++ ";".data, "/".data],
      (w == "CREATE".data) = false := by
    intro w hw
    rw [List.mem_append] at hw
    rcases hw with hw | hw
    · rw [beq_eq_false_iff_ne]
      intro he
      exact hbody (he ▸ hw)
    · rw [List.mem_cons, List.mem_cons, List.mem_cons] at hw
      rcases hw with rfl | rfl | rfl | hw
      · decide
      · rw [beq_eq_false_iff_ne]
        intro he
        have hsemi : ';' ∈ pyUpper tablespace ++ ";".data := by simp
        rw [he] at hsemi
        exact absurd hsemi (by decide)
      · decide
      · exact absurd hw (by simp)
  have hslash : pySplit ('/' :: [' ']) = ["/".data] := rfl
  have hdrops : createDrops packages
      [("TABLE".data, pyUpper schema ++ '.' :: pyUpper tablename)] =
      Except.ok (packages,
        ["DROP TABLE ".data ++ (pyUpper schema ++ '.' :: pyUpper tablename) ++ ";".data]) := rfl
  unfold parseSqlCreates parseCreatesWords
  rw [pySplit_formatForParsing, hM]
  rw [pySplit_word_space "PROMPT".data _ (by decide) (by decide)]
  rw [pySplit_word_space "--ADDING".data _ (by decide) (by decide)]
  rw [pySplit_word_space (pyUpper schema ++ '.' :: pyUpper tablename) _ hSTsolid (by simp)]
  rw [pySplit_word_space "TABLE".data _ (by decide) (by decide)]
  rw [pySplit_space_cons]
  rw [pySplit_word_space "CREATE".data _ (by decide) (by decide)]
  rw [pySplit_word_space "TABLE".data _ (by decide) (by decide)]
  rw [pySplit_word_space (pyUpper schema ++ '.' :: pyUpper tablename) _ hSTsolid (by simp)]
  rw [pySplit_space_cons, pySplit_space_cons]
  rw [pySplit_append_last_space ((tableScriptBody columns tablespace).map mapf) _
    (bodyMap_last columns tablespace)]
  rw [pySplit_word_space "TABLESPACE".data _ (by decide) (by decide)]
  rw [pySplit_word_space (pyUpper tablespace ++ ";".data) _ hTSsolid (by simp)]
  rw [hslash]
  rw [List.foldl_cons, e1, List.foldl_cons, e2, List.foldl_cons, e3, List.foldl_cons, e4,
    List.foldl_cons, e5, List.foldl_cons, e6, List.foldl_cons, e7]
  rw [foldl_createStep_skip _ _ rfl hall]
  show createDrops packages [("TABLE".data, pyUpper schema ++ '.' :: pyUpper tablename)] = _
  rw [hdrops]
  simp only [List.append_assoc, List.cons_append, List.nil_append]

/-- C2 counterexample to the literal claim: for the lower-case schema `s`,
table `t` and a column legally named `create`, the parser emits TWO drop
statements — the table's own (upper-cased, so not naming the table exactly
as given) and a bogus `DROP TABLE NUMBER;` produced by the column word
CREATE — not exactly one `DROP TABLE s.t;`. -/
theorem c2_counterexample_two_drops :
    parseSqlCreates []
        (writeTableScriptText "s".data "t".data [tupleOfColumn colCreate] "TS".data) =
      Except.ok ([], ["DROP TABLE S.T;".data, "DROP TABLE NUMBER;".data]) ∧
    (["DROP TABLE S.T;".data, "DROP TABLE NUMBER;".data] ≠ ["DROP TABLE s.t;".data]) :=
  ⟨rfl, by decide⟩

/-- C2 witness: schema `s`, table `t`, one plain NUMBER column named A,
tablespace `TS` satisfy the amended hypotheses, and the round trip yields
exactly `DROP TABLE S.T;`. -/
theorem c2_roundtrip_drop_uppercased_witness :
    ((("s".data.map mapf).all (fun c => !isPySpace c)) = true) ∧
    ((("t".data.map mapf).all (fun c => !isPySpace c)) = true) ∧
    ((("TS".data.map mapf).all (fun c => !isPySpace c)) = true) ∧
    "CREATE".data ∉ pySplit ((tableScriptBody [tupleOfColumn colA] "TS".data).map mapf) ∧
    parseSqlCreates [] (writeTableScriptText "s".data "t".data [tupleOfColumn colA] "TS".data) =
      Except.ok ([],
        ["DROP TABLE ".data ++ pyUpper "s".data ++ ".".data ++ pyUpper "t".data ++ ";".data]) :=
  ⟨by decide, by decide, by decide, by decide,
    c2_roundtrip_drop_uppercased [] ("s".data) ("t".data) [tupleOfColumn colA] ("TS".data)
      (by decide) (by decide) (by decide) (by decide)⟩
